import Mathlib

/-!
# RediSearch geo index: range decomposition, unit handling and validation

A shallow embedding of `src/geo_index.c` / `src/geo_index.h`.

* Machine integers are naturals with explicit reduction modulo `2 ^ 64`.
* A C `double` is a `CDouble`: NaN, the two infinities, or a rational.  The
  comparisons are the IEEE-754 ones (every comparison with NaN is false).
  A decimal constant, a product and a conversion from an integer are rounded
  to binary64 (round to nearest, ties to even, with gradual underflow and
  overflow to infinity) by `CDouble.round`.
* A C string is the list of its characters before the terminating NUL.
* A C array of `RANGE_COUNT` elements is a function on `Fin 9`.
-/

namespace RediSearch

/-! ## Geohash cells -/

/-- The cell type `GeoHashBits` of `geo/geohash.h`: `uint64_t bits; uint8_t step`. -/
structure GeoHashBits where
  bits : Nat
  step : Nat
deriving DecidableEq

/-- The eight neighbours of a cell, `GeoHashNeighbors` of `geo/geohash.h`. -/
structure GeoHashNeighbors where
  north : GeoHashBits
  east : GeoHashBits
  west : GeoHashBits
  south : GeoHashBits
  north_east : GeoHashBits
  south_east : GeoHashBits
  north_west : GeoHashBits
  south_west : GeoHashBits

/-- The cover of a radius query, `GeoHashRadius` of `geo/geohash_helper.h`: the centre
cell and its neighbours (the decoded `area` is not read by `geo_index.c`). -/
structure GeoHashRadius where
  hash : GeoHashBits
  neighbors : GeoHashNeighbors

/-- The constant `RANGE_COUNT` of `geo_index.h`. -/
def RANGE_COUNT : Nat := 9

/-- Modelled from the spec: the macro `HASHISZERO` of `geo/geohash.h` is not among the
sources.  The spec's empty (sentinel) cell is the one with `bits = 0` and `step = 0`;
the macro is `(!(r).bits && !(r).step)`. -/
def HASHISZERO (r : GeoHashBits) : Bool :=
  r.bits == 0 && r.step == 0

/-- Modelled from the spec: `geohashAlign52Bits` of `geo/geohash_helper.c` is not among
the sources.  The spec's "left-aligning its bit prefix to full precision" over the
52-bit scalar domain: the `2 * step` bits of the prefix are shifted left by
`52 - 2 * step` in a `uint64_t` (the C shift is defined for `step <= 26` only). -/
def geohashAlign52Bits (hash : GeoHashBits) : Nat :=
  (hash.bits <<< (52 - hash.step * 2)) % 2 ^ 64

/-- The function `scoresOfGeoHashBox`: `*min` is the aligned prefix, then `hash.bits++`
(a `uint64_t` increment), and `*max` is the aligned incremented prefix.  The result is
the pair `(*min, *max)`. -/
def scoresOfGeoHashBox (hash : GeoHashBits) : Nat × Nat :=
  let min := geohashAlign52Bits hash
  let hash1 : GeoHashBits := { hash with bits := (hash.bits + 1) % 2 ^ 64 }
  let max := geohashAlign52Bits hash1
  (min, max)

/-- A cell the geodesy primitive can produce: `1 ≤ step ≤ 26`, prefix of `2 * step` bits. -/
def validCell (c : GeoHashBits) : Prop :=
  1 ≤ c.step ∧ c.step ≤ 26 ∧ c.bits < 4 ^ c.step

instance (c : GeoHashBits) : Decidable (validCell c) := by
  unfold validCell; infer_instance

/-- The array `neighbors[RANGE_COUNT]` that `calcAllNeighbors` fills from the cover:
centre, north, south, east, west, north-east, north-west, south-east, south-west. -/
def neighborsArray (n : GeoHashRadius) : Fin 9 → GeoHashBits := fun i =>
  match i.val with
  | 0 => n.hash
  | 1 => n.neighbors.north
  | 2 => n.neighbors.south
  | 3 => n.neighbors.east
  | 4 => n.neighbors.west
  | 5 => n.neighbors.north_east
  | 6 => n.neighbors.north_west
  | 7 => n.neighbors.south_east
  | _ => n.neighbors.south_west

/-! ## Doubles -/

/-- A C `double`: NaN, an infinity, or a finite value (a rational). -/
inductive CDouble where
  | nan : CDouble
  | negInf : CDouble
  | posInf : CDouble
  | fin (q : ℚ) : CDouble
deriving DecidableEq

/-- The integer nearest to `x`, a tie going to the even one. -/
def roundHalfEven (x : ℚ) : Int :=
  let f := Int.floor x
  if x - f < 1 / 2 then f
  else if 1 / 2 < x - f then f + 1
  else if f % 2 = 0 then f else f + 1

namespace CDouble

/-- The C comparison `a < b` (false when either side is NaN). -/
def lt : CDouble → CDouble → Bool
  | fin a, fin b => decide (a < b)
  | negInf, fin _ => true
  | negInf, posInf => true
  | fin _, posInf => true
  | _, _ => false

/-- The C comparison `a <= b` (false when either side is NaN). -/
def le : CDouble → CDouble → Bool
  | fin a, fin b => decide (a ≤ b)
  | negInf, fin _ => true
  | negInf, posInf => true
  | negInf, negInf => true
  | fin _, posInf => true
  | posInf, posInf => true
  | _, _ => false

/-- The C comparison `a > b`. -/
def gt (a b : CDouble) : Bool := lt b a

/-- The C comparison `a >= b`. -/
def ge (a b : CDouble) : Bool := le b a

/-- The binary64 value of a real number: round to nearest, ties to even.  The unit in the
last place is `2 ^ (e - 52)` for a value in the binade `[2 ^ e, 2 ^ (e + 1))`, and
`2 ^ (-1074)` below `2 ^ (-1022)` (gradual underflow); a result of magnitude `2 ^ 1024`
or more is an infinity. -/
def round (x : ℚ) : CDouble :=
  let e : Int := max (Int.log 2 |x|) (-1022)
  let ulp : ℚ := 2 ^ (e - 52)
  let y : ℚ := roundHalfEven (x / ulp) * ulp
  if 2 ^ 1024 ≤ y then posInf else if y ≤ -2 ^ 1024 then negInf else fin y

/-- The C product `a * b`: NaN propagates, `inf * 0` is NaN, the sign rule applies to an
infinite factor, and the product of finite values is rounded to binary64. -/
def mul : CDouble → CDouble → CDouble
  | nan, _ => nan
  | _, nan => nan
  | fin a, fin b => round (a * b)
  | posInf, posInf => posInf
  | negInf, negInf => posInf
  | posInf, negInf => negInf
  | negInf, posInf => negInf
  | posInf, fin b => if b = 0 then nan else if 0 < b then posInf else negInf
  | negInf, fin b => if b = 0 then nan else if 0 < b then negInf else posInf
  | fin a, posInf => if a = 0 then nan else if 0 < a then posInf else negInf
  | fin a, negInf => if a = 0 then nan else if 0 < a then negInf else posInf

/-- The conversion `(double)n` of a `uint64_t`: the binary64 value nearest to `n`
(`n` itself up to `2 ^ 53`). -/
def ofUInt64 (n : Nat) : CDouble := round (n : ℚ)

/-- The conversion `(uint64_t)d`: truncation for `0 ≤ d < 2 ^ 64`; outside that range
the C conversion is undefined and the value here is `0`. -/
def toUInt64 : CDouble → Nat
  | fin q => if 0 ≤ q ∧ q < 2 ^ 64 then (Int.floor q).toNat else 0
  | _ => 0

end CDouble

/-! ## Distance units -/

/-- The enumeration `GeoDistance` of `geo_index.h`: the sentinel `GEO_DISTANCE_INVALID = -1`
and the units generated by `X_GEO_DISTANCE`, in the order KM, M, FT, MI. -/
inductive GeoDistance where
  | GEO_DISTANCE_INVALID : GeoDistance
  | GEO_DISTANCE_KM : GeoDistance
  | GEO_DISTANCE_M : GeoDistance
  | GEO_DISTANCE_FT : GeoDistance
  | GEO_DISTANCE_MI : GeoDistance
deriving DecidableEq

open GeoDistance

/-- The C library `tolower` in the C locale: `A`..`Z` are moved to `a`..`z`. -/
def tolower (c : Char) : Char :=
  if 65 ≤ c.toNat ∧ c.toNat ≤ 90 then Char.ofNat (c.toNat + 32) else c

/-- The C library `strcasecmp` on the contents of two strings: negative, zero or
positive as the first string, letter case ignored, is less than, equal to or greater
than the second. -/
def strcasecmp : List Char → List Char → Int
  | [], [] => 0
  | [], _ :: _ => -1
  | _ :: _, [] => 1
  | a :: as, b :: bs =>
    if (tolower a).toNat < (tolower b).toNat then -1
    else if (tolower b).toNat < (tolower a).toNat then 1
    else strcasecmp as bs

/-- The function `GeoDistance_Parse`: the expansion of `X_GEO_DISTANCE(X)` with
`X(c, val)` = `if (!strcasecmp(val, s)) return GEO_DISTANCE_##c;`. -/
def GeoDistance_Parse (s : List Char) : GeoDistance :=
  if strcasecmp "km".toList s = 0 then GEO_DISTANCE_KM
  else if strcasecmp "m".toList s = 0 then GEO_DISTANCE_M
  else if strcasecmp "ft".toList s = 0 then GEO_DISTANCE_FT
  else if strcasecmp "mi".toList s = 0 then GEO_DISTANCE_MI
  else GEO_DISTANCE_INVALID

/-- The function `GeoDistance_ToString`: the expansion of `X_GEO_DISTANCE(X)` with
`X(c, val)` = `if (d == GEO_DISTANCE_##c) return val;`. -/
def GeoDistance_ToString (d : GeoDistance) : List Char :=
  if d = GEO_DISTANCE_KM then "km".toList
  else if d = GEO_DISTANCE_M then "m".toList
  else if d = GEO_DISTANCE_FT then "ft".toList
  else if d = GEO_DISTANCE_MI then "mi".toList
  else "<badunit>".toList

/-- What `extractUnitFactor` leaves: the value `rv` it returns when it returns, and
whether control reached the `assert(0)` of the `default` branch. -/
structure UnitFactor where
  rv : CDouble
  assertReached : Bool
deriving DecidableEq

/-- The function `extractUnitFactor`: the integer constants 1, 1000 and -1 convert
exactly, the decimal constants 0.3048 and 1609.34 denote the binary64 values nearest to
them. -/
def extractUnitFactor (unit : GeoDistance) : UnitFactor :=
  match unit with
  | GEO_DISTANCE_M => ⟨CDouble.fin 1, false⟩
  | GEO_DISTANCE_KM => ⟨CDouble.fin 1000, false⟩
  | GEO_DISTANCE_FT => ⟨CDouble.round 0.3048, false⟩
  | GEO_DISTANCE_MI => ⟨CDouble.round 1609.34, false⟩
  | GEO_DISTANCE_INVALID => ⟨CDouble.fin (-1), true⟩

/-! ## The filter -/

/-- The structure `GeoFilter` of `geo_index.h`; `ranges[RANGE_COUNT][2]` holds a
`(min, max)` pair of `uint64_t` per slot. -/
structure GeoFilter where
  property : Option (List Char)
  lat : CDouble
  lon : CDouble
  radius : CDouble
  unitType : GeoDistance
  ranges : Fin 9 → Nat × Nat

/-- The function `NewGeoFilter`: the compound literal zeroes `property` and `ranges`;
`unit` is a C string or `NULL`. -/
def NewGeoFilter (lon lat radius : CDouble) (unit : Option (List Char)) : GeoFilter :=
  { property := none
    lat := lat
    lon := lon
    radius := radius
    unitType :=
      match unit with
      | some u => GeoDistance_Parse u
      | none => GEO_DISTANCE_KM
    ranges := fun _ => (0, 0) }

/-- The function `GeoFilter_Validate`: the returned `int`, and the message given to
`QERR_MKSYNTAXERR` when there is one. -/
def GeoFilter_Validate (gf : GeoFilter) : Int × Option String :=
  if gf.unitType = GEO_DISTANCE_INVALID then (0, some "Invalid GeoFilter unit")
  else if CDouble.gt gf.lat (CDouble.fin 90) || CDouble.lt gf.lat (CDouble.fin (-90)) ||
      CDouble.gt gf.lon (CDouble.fin 180) || CDouble.lt gf.lon (CDouble.fin (-180)) then
    (0, some "Invalid GeoFilter lat/lon")
  else if CDouble.le gf.radius (CDouble.fin 0) then (0, some "Invalid GeoFilter radius")
  else (1, none)

/-! ## Range decomposition -/

/-- The state of the loop of `calcAllNeighbors`: the array `gf->ranges`, the local
`last_processed`, and (ghost) the slots stored to so far, in order. -/
structure NeighborLoop where
  ranges : Fin 9 → Nat × Nat
  last_processed : Fin 9
  written : List (Fin 9)

/-- One iteration of the loop of `calcAllNeighbors`, for the index `i`. -/
def calcAllNeighbors_body (neighbors : Fin 9 → GeoHashBits) (st : NeighborLoop)
    (i : Fin 9) : NeighborLoop :=
  if HASHISZERO (neighbors i) then st
  else if st.last_processed.val ≠ 0 ∧
      (neighbors i).bits = (neighbors st.last_processed).bits ∧
      (neighbors i).step = (neighbors st.last_processed).step then st
  else
    { ranges := Function.update st.ranges i (scoresOfGeoHashBox (neighbors i))
      last_processed := i
      written := st.written ++ [i] }

/-- The indices `0 .. RANGE_COUNT - 1` in loop order. -/
def slots : List (Fin 9) := [0, 1, 2, 3, 4, 5, 6, 7, 8]

/-- The loop of `calcAllNeighbors` run from `last_processed = 0` on the array `ranges`. -/
def calcAllNeighbors_loop (n : GeoHashRadius) (ranges : Fin 9 → Nat × Nat) : NeighborLoop :=
  slots.foldl (calcAllNeighbors_body (neighborsArray n)) ⟨ranges, 0, []⟩

/-- The function `calcAllNeighbors`: the filter after the call (`lon`, `lat` and
`radius` are not read). -/
def calcAllNeighbors (n : GeoHashRadius) (_lon _lat _radius : CDouble) (gf : GeoFilter) :
    GeoFilter :=
  { gf with ranges := (calcAllNeighbors_loop n gf.ranges).ranges }

/-- The slots of `gf->ranges` that `calcAllNeighbors` stores to, in order. -/
def writtenSlots (n : GeoHashRadius) (gf : GeoFilter) : List (Fin 9) :=
  (calcAllNeighbors_loop n gf.ranges).written

/-- The invariant of the loop of `calcAllNeighbors` started on the array `r0`, once the
indices satisfying `seen` have been run: a written slot holds the scores of its own
non-empty cell, any other slot holds what `r0` held, a non-zero `last_processed` is a
written slot, and every non-empty cell already run equals the cell of a written slot. -/
structure LoopInv (nb : Fin 9 → GeoHashBits) (r0 : Fin 9 → Nat × Nat)
    (seen : Fin 9 → Prop) (st : NeighborLoop) : Prop where
  written_val : ∀ j ∈ st.written,
    st.ranges j = scoresOfGeoHashBox (nb j) ∧ HASHISZERO (nb j) = false
  unwritten : ∀ j, j ∉ st.written → st.ranges j = r0 j
  last : st.last_processed.val ≠ 0 → st.last_processed ∈ st.written
  covered : ∀ i, seen i → HASHISZERO (nb i) = false → ∃ j ∈ st.written, nb j = nb i

/-- The local `radius_meters` of `calcRanges`. -/
def radius_meters (gf : GeoFilter) : CDouble :=
  CDouble.mul gf.radius (extractUnitFactor gf.unitType).rv

/-- The function `calcRanges`: the returned `int` and the filter after the call.  The
geodesy primitive `geohashGetAreasByRadiusWGS84` is a parameter. -/
def calcRanges (geohashGetAreasByRadiusWGS84 : CDouble → CDouble → CDouble → GeoHashRadius)
    (gf : GeoFilter) : Int × GeoFilter :=
  let xy0 := gf.lon
  let xy1 := gf.lat
  if CDouble.lt (radius_meters gf) (CDouble.fin 0) then (-1, gf)
  else
    let georadius := geohashGetAreasByRadiusWGS84 xy0 xy1 (radius_meters gf)
    (0, calcAllNeighbors georadius xy0 xy1 (radius_meters gf) gf)

/-! ## Exact distance test -/

/-- Modelled from the spec: the constant `GEO_STEP_MAX` of `geo/geohash.h` is not among
the sources; the 52-bit scalar has 26 bit pairs. -/
def GEO_STEP_MAX : Nat := 26

/-- The function `decodeGeo`: the returned `int` and the decoded `xy`.  The geodesy
primitive `geohashDecodeToLongLatWGS84` is a parameter. -/
def decodeGeo (geohashDecodeToLongLatWGS84 : GeoHashBits → Int × (CDouble × CDouble))
    (bits : CDouble) : Int × (CDouble × CDouble) :=
  geohashDecodeToLongLatWGS84 ⟨CDouble.toUInt64 bits, GEO_STEP_MAX⟩

/-- The function `isWithinRadius`: the returned `int` and the value stored in
`*distance`.  The geodesy primitives are parameters. -/
def isWithinRadius (geohashDecodeToLongLatWGS84 : GeoHashBits → Int × (CDouble × CDouble))
    (geohashGetDistance : CDouble → CDouble → CDouble → CDouble → CDouble)
    (center point radius : CDouble) : Int × CDouble :=
  let xyCenter := (decodeGeo geohashDecodeToLongLatWGS84 center).2
  let xyPoint := (decodeGeo geohashDecodeToLongLatWGS84 point).2
  let distance := geohashGetDistance xyCenter.1 xyCenter.2 xyPoint.1 xyPoint.2
  if CDouble.gt distance radius then (0, distance) else (1, distance)

/-- The distance `isWithinRadius` computes: `geohashGetDistance` applied to the decoded
centre and the decoded point. -/
def decodedDistance (geohashDecodeToLongLatWGS84 : GeoHashBits → Int × (CDouble × CDouble))
    (geohashGetDistance : CDouble → CDouble → CDouble → CDouble → CDouble)
    (center point : CDouble) : CDouble :=
  geohashGetDistance (decodeGeo geohashDecodeToLongLatWGS84 center).2.1
    (decodeGeo geohashDecodeToLongLatWGS84 center).2.2
    (decodeGeo geohashDecodeToLongLatWGS84 point).2.1
    (decodeGeo geohashDecodeToLongLatWGS84 point).2.2

/-! ## Query plan -/

/-- The structure `GeoIndex` of `geo_index.h`. -/
structure GeoIndex where
  keyname : List Char
  isDeleted : Int

/-- Modelled from the spec: `NumericFilter` and `NewNumericFilter` of `numeric_filter.h`
are not among the sources.  The filter keeps the four arguments of
`NewNumericFilter(min, max, inclusiveMin, inclusiveMax)`: the bounds of the lookup and,
for each bound, whether the bound itself is admitted (the spec's inclusive-min and
exclusive-max are `inclusiveMin = 1` and `inclusiveMax = 0`). -/
structure NumericFilter where
  min : CDouble
  max : CDouble
  inclusiveMin : Int
  inclusiveMax : Int
deriving DecidableEq

/-- Modelled from the spec: the constructor `NewNumericFilter` of `numeric_filter.c`,
not among the sources, storing its arguments. -/
def NewNumericFilter (min max : CDouble) (inclusiveMin inclusiveMax : Int) : NumericFilter :=
  ⟨min, max, inclusiveMin, inclusiveMax⟩

/-- Modelled from the spec: the test a range lookup applies to a stored scalar
(`NumericFilter_Match` of `numeric_filter.h`, not among the sources): above the lower
bound and below the upper bound, each bound admitted when its flag is set. -/
def NumericFilter_Match (f : NumericFilter) (score : CDouble) : Bool :=
  (if f.inclusiveMin ≠ 0 then CDouble.ge score f.min else CDouble.gt score f.min) &&
    (if f.inclusiveMax ≠ 0 then CDouble.le score f.max else CDouble.lt score f.max)

/-- Modelled from the spec: `NewUnionIterator` and `NewNumericFilterIterator` are not
among the sources.  The union is the record of the arguments of the call
`NewUnionIterator(its, num, dt, quickExit, weight)`, the last being the weight carried
by the union (the spec's constant multiplier on the union); each child iterator
`NewNumericFilterIterator(NULL, &filt, NULL)` is given by its filter. -/
structure UnionIterator where
  its : Fin 9 → NumericFilter
  num : Nat
  quickExit : Int
  weight : CDouble

/-- The function `NewGeoRangeIterator` (the definition that decomposes locally): the
filter after `calcRanges` and the union `ret`. -/
def NewGeoRangeIterator
    (geohashGetAreasByRadiusWGS84 : CDouble → CDouble → CDouble → GeoHashRadius)
    (_gi : GeoIndex) (gf : GeoFilter) (_weight : CDouble) : GeoFilter × UnionIterator :=
  let gf1 := (calcRanges geohashGetAreasByRadiusWGS84 gf).2
  let iters : Fin 9 → NumericFilter := fun ii =>
    NewNumericFilter (CDouble.ofUInt64 (gf1.ranges ii).1) (CDouble.ofUInt64 (gf1.ranges ii).2) 1 1
  (gf1, ⟨iters, RANGE_COUNT, 1, CDouble.fin 1⟩)

/-! ## Concrete inputs -/

/-- A cover whose centre and eight neighbours are all the cell `c`. -/
def sameCellCover (c : GeoHashBits) : GeoHashRadius :=
  ⟨c, ⟨c, c, c, c, c, c, c, c⟩⟩

/-- A cover near a pole: the northern neighbours are empty, east repeats south and
west repeats the centre. -/
def poleCover : GeoHashRadius :=
  { hash := ⟨42, 3⟩
    neighbors :=
      { north := ⟨0, 0⟩
        east := ⟨40, 3⟩
        west := ⟨42, 3⟩
        south := ⟨40, 3⟩
        north_east := ⟨0, 0⟩
        south_east := ⟨41, 3⟩
        north_west := ⟨0, 0⟩
        south_west := ⟨43, 3⟩ } }

/-- The filter `NewGeoFilter(0, 0, 1, "km")`. -/
def unitFilter : GeoFilter :=
  NewGeoFilter (CDouble.fin 0) (CDouble.fin 0) (CDouble.fin 1) (some "km".toList)

/-- The filter `unitFilter` with every slot of `ranges` holding an older range `[5, 7)`. -/
def staleFilter : GeoFilter :=
  { unitFilter with ranges := fun _ => (5, 7) }

/-- A cover in which south repeats the centre across an empty north cell, east repeats
south, north-west repeats west across an empty north-east cell, and south-west repeats
south-east. -/
def centreRepeatCover : GeoHashRadius :=
  { hash := ⟨42, 3⟩
    neighbors :=
      { north := ⟨0, 0⟩
        east := ⟨42, 3⟩
        west := ⟨40, 3⟩
        south := ⟨42, 3⟩
        north_east := ⟨0, 0⟩
        south_east := ⟨41, 3⟩
        north_west := ⟨40, 3⟩
        south_west := ⟨41, 3⟩ } }

/-- The filter `NewGeoFilter(0, 0, NAN, "km")`. -/
def nanRadiusFilter : GeoFilter :=
  NewGeoFilter (CDouble.fin 0) (CDouble.fin 0) CDouble.nan (some "km".toList)

/-! ## Shared arithmetic lemmas -/

theorem four_pow_mul_two_pow (step : Nat) (h : step ≤ 26) :
    4 ^ step * 2 ^ (52 - step * 2) = 2 ^ 52 := by
  have h4 : (4 : Nat) ^ step = 2 ^ (step * 2) := by
    rw [Nat.mul_comm, Nat.pow_mul]
  rw [h4, ← Nat.pow_add]
  congr 1
  omega

theorem align_eq_mul (c : GeoHashBits) (h : c.step ≤ 26) (hb : c.bits ≤ 4 ^ c.step) :
    geohashAlign52Bits c = c.bits * 2 ^ (52 - c.step * 2) := by
  unfold geohashAlign52Bits
  rw [Nat.shiftLeft_eq]
  apply Nat.mod_eq_of_lt
  have h1 : c.bits * 2 ^ (52 - c.step * 2) ≤ 4 ^ c.step * 2 ^ (52 - c.step * 2) :=
    Nat.mul_le_mul_right _ hb
  rw [four_pow_mul_two_pow c.step h] at h1
  have : (2 : Nat) ^ 52 < 2 ^ 64 := by norm_num
  omega

theorem four_pow_lt (step : Nat) (h : step ≤ 26) : 4 ^ step < 2 ^ 64 := by
  have h1 : (4 : Nat) ^ step ≤ 4 ^ 26 := Nat.pow_le_pow_right (by norm_num) h
  have h2 : (4 : Nat) ^ 26 < 2 ^ 64 := by norm_num
  omega

theorem scores_eq (c : GeoHashBits) (hv : validCell c) :
    scoresOfGeoHashBox c =
      (c.bits * 2 ^ (52 - c.step * 2), (c.bits + 1) * 2 ^ (52 - c.step * 2)) := by
  obtain ⟨_, h26, hb⟩ := hv
  have hlt := four_pow_lt c.step h26
  have hwrap : (c.bits + 1) % 2 ^ 64 = c.bits + 1 := Nat.mod_eq_of_lt (by omega)
  unfold scoresOfGeoHashBox
  simp only [hwrap]
  rw [align_eq_mul c h26 (by omega)]
  rw [align_eq_mul ⟨c.bits + 1, c.step⟩ h26 (by simpa using hb)]

theorem mem_range_iff (b k s : Nat) :
    (b * 2 ^ k ≤ s ∧ s < (b + 1) * 2 ^ k) ↔ s >>> k = b := by
  rw [Nat.shiftRight_eq_div_pow]
  have hk : 0 < 2 ^ k := Nat.two_pow_pos k
  constructor
  · rintro ⟨h1, h2⟩
    apply Nat.le_antisymm
    · exact Nat.le_of_lt_succ ((Nat.div_lt_iff_lt_mul hk).2 h2)
    · exact (Nat.le_div_iff_mul_le hk).2 h1
  · rintro rfl
    constructor
    · exact Nat.div_mul_le_self s (2 ^ k)
    · exact (Nat.div_lt_iff_lt_mul hk).1 (Nat.lt_succ_self _)

theorem scoresOfGeoHashBox_half_open_aux (c : GeoHashBits) (hv : validCell c) (s : Nat) :
    ((scoresOfGeoHashBox c).1 ≤ s ∧ s < (scoresOfGeoHashBox c).2) ↔
      s >>> (52 - 2 * c.step) = c.bits := by
  have hk : 52 - 2 * c.step = 52 - c.step * 2 := by omega
  rw [scores_eq c hv, hk]
  exact mem_range_iff c.bits (52 - c.step * 2) s

/-! ## C1 -/

/-- C1: for a cell with `1 ≤ step ≤ 26` and `bits < 4 ^ step`, the pair `(min, max)`
returned by `scoresOfGeoHashBox` satisfies `min ≤ s < max` exactly when
`s >> (52 - 2 * step) = bits` (for every scalar `s`, the 52-bit ones included); the
scalars of the following sibling cell (prefix `bits + 1`) are excluded, and `max` is
the `min` of that sibling. -/
theorem scoresOfGeoHashBox_half_open (c : GeoHashBits) (hv : validCell c) (s : Nat) :
    (((scoresOfGeoHashBox c).1 ≤ s ∧ s < (scoresOfGeoHashBox c).2) ↔
        s >>> (52 - 2 * c.step) = c.bits) ∧
      (s >>> (52 - 2 * c.step) = c.bits + 1 →
        ¬ ((scoresOfGeoHashBox c).1 ≤ s ∧ s < (scoresOfGeoHashBox c).2)) ∧
      (scoresOfGeoHashBox c).2 = (scoresOfGeoHashBox ⟨c.bits + 1, c.step⟩).1 := by
  have hsc := scores_eq c hv
  have hk : 52 - 2 * c.step = 52 - c.step * 2 := by omega
  have hiff := mem_range_iff c.bits (52 - c.step * 2) s
  rw [hsc, hk]
  refine ⟨hiff, ?_, ?_⟩
  · intro h1 h2
    have := hiff.1 h2
    omega
  · obtain ⟨_, h26, hb⟩ := hv
    show _ = geohashAlign52Bits ⟨c.bits + 1, c.step⟩
    rw [align_eq_mul ⟨c.bits + 1, c.step⟩ h26 (by simpa using hb)]

theorem scoresOfGeoHashBox_half_open_witness :
    validCell ⟨42, 3⟩ ∧
      (((scoresOfGeoHashBox ⟨42, 3⟩).1 ≤ 42 * 2 ^ 46 + 5 ∧
          42 * 2 ^ 46 + 5 < (scoresOfGeoHashBox ⟨42, 3⟩).2) ↔
        (42 * 2 ^ 46 + 5) >>> (52 - 2 * 3) = 42) :=
  ⟨by decide, (scoresOfGeoHashBox_half_open ⟨42, 3⟩ (by decide) (42 * 2 ^ 46 + 5)).1⟩

/-! ## The loop of `calcAllNeighbors` -/

theorem mem_slots (i : Fin 9) : i ∈ slots := by
  revert i; decide

theorem cell_eq_of_fields (a b : GeoHashBits) (hb : a.bits = b.bits) (hs : a.step = b.step) :
    a = b := by
  cases a; cases b; simp_all

theorem loopInv_init (nb : Fin 9 → GeoHashBits) (r0 : Fin 9 → Nat × Nat) :
    LoopInv nb r0 (fun _ => False) ⟨r0, 0, []⟩ where
  written_val := by intro j hj; simp at hj
  unwritten := by intro j _; rfl
  last := by intro h; simp at h
  covered := by intro i hi; exact hi.elim

theorem loopInv_body (nb : Fin 9 → GeoHashBits) (r0 : Fin 9 → Nat × Nat)
    (seen : Fin 9 → Prop) (st : NeighborLoop) (i : Fin 9) (h : LoopInv nb r0 seen st) :
    LoopInv nb r0 (fun k => seen k ∨ k = i) (calcAllNeighbors_body nb st i) := by
  unfold calcAllNeighbors_body
  by_cases hz : HASHISZERO (nb i) = true
  · rw [if_pos hz]
    refine ⟨h.written_val, h.unwritten, h.last, ?_⟩
    rintro k (hk | rfl) hne
    · exact h.covered k hk hne
    · rw [hz] at hne; cases hne
  · rw [if_neg hz]
    have hz' : HASHISZERO (nb i) = false := by simpa using hz
    by_cases hd : st.last_processed.val ≠ 0 ∧
        (nb i).bits = (nb st.last_processed).bits ∧
        (nb i).step = (nb st.last_processed).step
    · rw [if_pos hd]
      refine ⟨h.written_val, h.unwritten, h.last, ?_⟩
      rintro k (hk | rfl) hne
      · exact h.covered k hk hne
      · exact ⟨st.last_processed, h.last hd.1,
          (cell_eq_of_fields _ _ hd.2.1 hd.2.2).symm⟩
    · rw [if_neg hd]
      refine ⟨?_, ?_, ?_, ?_⟩
      · intro j hj
        by_cases hji : j = i
        · subst hji
          simp [hz']
        · have hj' : j ∈ st.written := by
            rcases List.mem_append.1 hj with hj | hj
            · exact hj
            · exact absurd (List.mem_singleton.1 hj) hji
          simpa [Function.update_noteq hji] using h.written_val j hj'
      · intro j hj
        have hji : j ≠ i := fun e => hj (by simp [e])
        have hj' : j ∉ st.written := fun e => hj (List.mem_append.2 (Or.inl e))
        simpa [Function.update_noteq hji] using h.unwritten j hj'
      · intro _
        simp
      · rintro k (hk | rfl) hne
        · obtain ⟨j, hj, hjk⟩ := h.covered k hk hne
          exact ⟨j, List.mem_append.2 (Or.inl hj), hjk⟩
        · exact ⟨k, by simp, rfl⟩

theorem loopInv_foldl (nb : Fin 9 → GeoHashBits) (r0 : Fin 9 → Nat × Nat) (l : List (Fin 9)) :
    ∀ (seen : Fin 9 → Prop) (st : NeighborLoop), LoopInv nb r0 seen st →
      LoopInv nb r0 (fun k => seen k ∨ k ∈ l) (l.foldl (calcAllNeighbors_body nb) st) := by
  induction l with
  | nil =>
    intro seen st h
    simpa using h
  | cons a l ih =>
    intro seen st h
    have h1 := ih _ _ (loopInv_body nb r0 seen st a h)
    have heq : (fun k => (seen k ∨ k = a) ∨ k ∈ l) = (fun k => seen k ∨ k ∈ a :: l) := by
      funext k
      simp [or_assoc]
    rw [heq] at h1
    exact h1

theorem loopInv_final (n : GeoHashRadius) (r0 : Fin 9 → Nat × Nat) :
    LoopInv (neighborsArray n) r0 (fun _ => True) (calcAllNeighbors_loop n r0) := by
  have h := loopInv_foldl (neighborsArray n) r0 slots _ _ (loopInv_init (neighborsArray n) r0)
  have heq : (fun k => False ∨ k ∈ slots) = (fun _ : Fin 9 => True) := by
    funext k
    simp [mem_slots]
  rw [heq] at h
  exact h

/-! ## C2 -/

/-- C2: no false negatives at the decomposition stage.  For a cover whose cells are valid
(`1 ≤ step ≤ 26`, `bits < 4 ^ step`) or empty, and a scalar `s` whose top `2 * step` bits
are the bits of a non-empty cell of the cover (any such scalar, the 52-bit ones
included), `calcAllNeighbors` stores to some slot a range with `min ≤ s < max`. -/
theorem calcAllNeighbors_no_false_negative (n : GeoHashRadius) (lon lat radius : CDouble)
    (gf : GeoFilter)
    (hcells : ∀ i, validCell (neighborsArray n i) ∨ HASHISZERO (neighborsArray n i) = true)
    (i : Fin 9) (hne : HASHISZERO (neighborsArray n i) = false)
    (s : Nat)
    (hpre : s >>> (52 - 2 * (neighborsArray n i).step) = (neighborsArray n i).bits) :
    ∃ j ∈ writtenSlots n gf,
      ((calcAllNeighbors n lon lat radius gf).ranges j).1 ≤ s ∧
        s < ((calcAllNeighbors n lon lat radius gf).ranges j).2 := by
  have hinv := loopInv_final n gf.ranges
  obtain ⟨j, hj, hji⟩ := hinv.covered i trivial hne
  refine ⟨j, hj, ?_⟩
  have hval := (hinv.written_val j hj).1
  have hv : validCell (neighborsArray n i) := by
    rcases hcells i with hv | hz
    · exact hv
    · rw [hz] at hne; cases hne
  show ((calcAllNeighbors_loop n gf.ranges).ranges j).1 ≤ s ∧
    s < ((calcAllNeighbors_loop n gf.ranges).ranges j).2
  rw [hval, hji]
  exact (scoresOfGeoHashBox_half_open_aux (neighborsArray n i) hv s).2 hpre

theorem calcAllNeighbors_no_false_negative_witness :
    (∀ i, validCell (neighborsArray poleCover i) ∨
        HASHISZERO (neighborsArray poleCover i) = true) ∧
      ∃ j ∈ writtenSlots poleCover unitFilter,
        ((calcAllNeighbors poleCover (CDouble.fin 0) (CDouble.fin 0) (CDouble.fin 1000)
            unitFilter).ranges j).1 ≤ 40 * 2 ^ 46 + 7 ∧
          40 * 2 ^ 46 + 7 <
            ((calcAllNeighbors poleCover (CDouble.fin 0) (CDouble.fin 0) (CDouble.fin 1000)
              unitFilter).ranges j).2 :=
  ⟨by decide,
    calcAllNeighbors_no_false_negative poleCover (CDouble.fin 0) (CDouble.fin 0)
      (CDouble.fin 1000) unitFilter (by decide) 3 (by decide) (40 * 2 ^ 46 + 7) (by decide)⟩

/-! ## C3 -/

/-- C3: when all nine cells of the cover are one and the same non-empty cell,
`calcAllNeighbors` stores to exactly the two slots 0 and 1 (centre and north), not to
one slot, and both receive the range of that cell: the duplicate test is disabled while
`last_processed` is 0, which is also the index of the centre. -/
theorem calcAllNeighbors_same_cell_writes_two (n : GeoHashRadius) (c : GeoHashBits)
    (hall : ∀ i, neighborsArray n i = c) (hne : HASHISZERO c = false)
    (lon lat radius : CDouble) (gf : GeoFilter) :
    writtenSlots n gf = [0, 1] ∧ (writtenSlots n gf).length = 2 ∧
      (calcAllNeighbors n lon lat radius gf).ranges 0 = scoresOfGeoHashBox c ∧
      (calcAllNeighbors n lon lat radius gf).ranges 1 = scoresOfGeoHashBox c := by
  have hw : writtenSlots n gf = [0, 1] := by
    unfold writtenSlots calcAllNeighbors_loop slots
    simp [List.foldl, calcAllNeighbors_body, hall, hne]
  have hinv := loopInv_final n gf.ranges
  have h0 := (hinv.written_val 0 (by rw [← writtenSlots, hw]; simp)).1
  have h1 := (hinv.written_val 1 (by rw [← writtenSlots, hw]; simp)).1
  rw [hall] at h0 h1
  rw [hw]
  exact ⟨rfl, rfl, h0, h1⟩

theorem calcAllNeighbors_same_cell_writes_two_witness :
    (∀ i, neighborsArray (sameCellCover ⟨1, 1⟩) i = ⟨1, 1⟩) ∧
      HASHISZERO ⟨1, 1⟩ = false ∧
      writtenSlots (sameCellCover ⟨1, 1⟩) unitFilter = [0, 1] ∧
      (writtenSlots (sameCellCover ⟨1, 1⟩) unitFilter).length = 2 ∧
      (calcAllNeighbors (sameCellCover ⟨1, 1⟩) (CDouble.fin 0) (CDouble.fin 0)
          (CDouble.fin 1000) unitFilter).ranges 0 = scoresOfGeoHashBox ⟨1, 1⟩ ∧
      (calcAllNeighbors (sameCellCover ⟨1, 1⟩) (CDouble.fin 0) (CDouble.fin 0)
          (CDouble.fin 1000) unitFilter).ranges 1 = scoresOfGeoHashBox ⟨1, 1⟩ :=
  ⟨by decide, by decide,
    calcAllNeighbors_same_cell_writes_two (sameCellCover ⟨1, 1⟩) ⟨1, 1⟩ (by decide) (by decide)
      (CDouble.fin 0) (CDouble.fin 0) (CDouble.fin 1000) unitFilter⟩

/-! ## Binary64 rounding -/

theorem log_eq_of_bounds (a : ℚ) (e : ℤ) (h1 : (2 : ℚ) ^ e ≤ a) (h2 : a < 2 ^ (e + 1)) :
    Int.log 2 a = e := by
  have ha : 0 < a := lt_of_lt_of_le (zpow_pos (by norm_num) e) h1
  have h3 : e ≤ Int.log 2 a :=
    (Int.zpow_le_iff_le_log (by norm_num) ha).1 (by exact_mod_cast h1)
  have h4 : Int.log 2 a < e + 1 :=
    (Int.lt_zpow_iff_log_lt (by norm_num) ha).1 (by exact_mod_cast h2)
  omega

theorem roundHalfEven_eq_of_close (t : ℚ) (m : ℤ) (h : |t - m| < 1 / 2) :
    roundHalfEven t = m := by
  rw [abs_lt] at h
  unfold roundHalfEven
  simp only []
  by_cases hlo : (m : ℚ) ≤ t
  · have hf : Int.floor t = m := Int.floor_eq_iff.2 ⟨hlo, by linarith⟩
    rw [hf, if_pos (by linarith)]
  · have hlo' : t < m := not_le.1 hlo
    have hf : Int.floor t = m - 1 := by
      apply Int.floor_eq_iff.2
      push_cast
      constructor <;> linarith
    rw [hf]
    push_cast
    rw [if_neg (by linarith), if_pos (by linarith)]
    ring

theorem roundHalfEven_nonneg (t : ℚ) (ht : 0 ≤ t) : 0 ≤ roundHalfEven t := by
  have hf : 0 ≤ Int.floor t := Int.floor_nonneg.2 ht
  unfold roundHalfEven
  simp only []
  split
  · exact hf
  · split
    · omega
    · split
      · exact hf
      · omega

/-- The binade of a normal value. -/
theorem binade_normal (x : ℚ) (e : ℤ) (h1 : (2 : ℚ) ^ e ≤ |x|) (h2 : |x| < 2 ^ (e + 1))
    (he : -1022 ≤ e) : max (Int.log 2 |x|) (-1022) = e := by
  rw [log_eq_of_bounds _ e h1 h2]
  exact max_eq_left he

/-- The binade of a non-zero value below the normal range. -/
theorem binade_subnormal (x : ℚ) (hx : x ≠ 0) (h2 : |x| < 2 ^ (-1022 : ℤ)) :
    max (Int.log 2 |x|) (-1022) = -1022 := by
  have ha : 0 < |x| := abs_pos.2 hx
  have : Int.log 2 |x| < -1022 :=
    (Int.lt_zpow_iff_log_lt (by norm_num) ha).1 (by exact_mod_cast h2)
  exact max_eq_right (by omega)

/-- A certificate for one rounding: the binade `e`, the unit in the last place `u`, and
an integer `m` within half a unit of `x / u`. -/
theorem round_eq (x : ℚ) (e m : ℤ) (u : ℚ)
    (he : max (Int.log 2 |x|) (-1022) = e) (hu : (2 : ℚ) ^ (e - 52) = u)
    (hm : |x / u - m| < 1 / 2) (h1 : (m : ℚ) * u < 2 ^ 1024) (h2 : -2 ^ 1024 < (m : ℚ) * u) :
    CDouble.round x = CDouble.fin (m * u) := by
  unfold CDouble.round
  simp only [he, hu, roundHalfEven_eq_of_close _ _ hm]
  rw [if_neg (not_le.2 h1), if_neg (not_le.2 h2)]

theorem round_nonneg (x : ℚ) (hx : 0 ≤ x) :
    CDouble.round x = CDouble.posInf ∨ ∃ y : ℚ, 0 ≤ y ∧ CDouble.round x = CDouble.fin y := by
  unfold CDouble.round
  simp only []
  have hu : (0 : ℚ) < 2 ^ (max (Int.log 2 |x|) (-1022) - 52) := zpow_pos (by norm_num) _
  have hm := roundHalfEven_nonneg (x / 2 ^ (max (Int.log 2 |x|) (-1022) - 52))
    (div_nonneg hx (le_of_lt hu))
  have hy : (0 : ℚ) ≤ (roundHalfEven (x / 2 ^ (max (Int.log 2 |x|) (-1022) - 52)) : ℚ) *
      2 ^ (max (Int.log 2 |x|) (-1022) - 52) :=
    mul_nonneg (by exact_mod_cast hm) (le_of_lt hu)
  split
  · exact Or.inl rfl
  · rw [if_neg (by
      intro h
      have : (0 : ℚ) < 2 ^ 1024 := by norm_num
      linarith)]
    exact Or.inr ⟨_, hy, rfl⟩

theorem round_zero : CDouble.round 0 = CDouble.fin 0 := by
  have h := round_eq 0 (max (Int.log 2 |(0 : ℚ)|) (-1022)) 0
    (2 ^ (max (Int.log 2 |(0 : ℚ)|) (-1022) - 52)) rfl rfl (by norm_num) (by norm_num)
    (by norm_num)
  rw [h]
  norm_num

theorem round_1000 : CDouble.round 1000 = CDouble.fin 1000 := by
  have he := binade_normal 1000 9 (by norm_num [abs_of_pos]) (by norm_num [abs_of_pos])
    (by norm_num)
  have h := round_eq 1000 9 (1000 * 2 ^ 43) (1 / 2 ^ 43) he (by norm_num)
    (by norm_num [abs_lt]) (by norm_num) (by norm_num)
  rw [h]
  norm_num

/-- The binary64 value of the constant 0.3048. -/
theorem round_ft :
    CDouble.round 0.3048 = CDouble.fin (5490788665690109 / 18014398509481984) := by
  have he := binade_normal 0.3048 (-2) (by norm_num [abs_of_pos]) (by norm_num [abs_of_pos])
    (by norm_num)
  have h := round_eq 0.3048 (-2) 5490788665690109 (1 / 18014398509481984) he (by norm_num)
    (by norm_num [abs_lt]) (by norm_num) (by norm_num)
  rw [h]
  norm_num

/-- The binary64 value of the constant 1609.34. -/
theorem round_mi :
    CDouble.round 1609.34 = CDouble.fin (7077952172180111 / 4398046511104) := by
  have he := binade_normal 1609.34 10 (by norm_num [abs_of_pos]) (by norm_num [abs_of_pos])
    (by norm_num)
  have h := round_eq 1609.34 10 7077952172180111 (1 / 4398046511104) he (by norm_num)
    (by norm_num [abs_lt]) (by norm_num) (by norm_num)
  rw [h]
  norm_num

theorem ofUInt64_slot_min : CDouble.ofUInt64 (42 * 2 ^ 46) = CDouble.fin (42 * 2 ^ 46) := by
  have he := binade_normal (42 * 2 ^ 46) 51 (by norm_num [abs_of_pos])
    (by norm_num [abs_of_pos]) (by norm_num)
  have h := round_eq (42 * 2 ^ 46) 51 (84 * 2 ^ 46) (1 / 2) he (by norm_num)
    (by norm_num [abs_lt]) (by norm_num) (by norm_num)
  unfold CDouble.ofUInt64
  rw [show (((42 * 2 ^ 46 : ℕ)) : ℚ) = 42 * 2 ^ 46 by norm_num, h]
  norm_num

theorem ofUInt64_slot_max : CDouble.ofUInt64 (43 * 2 ^ 46) = CDouble.fin (43 * 2 ^ 46) := by
  have he := binade_normal (43 * 2 ^ 46) 51 (by norm_num [abs_of_pos])
    (by norm_num [abs_of_pos]) (by norm_num)
  have h := round_eq (43 * 2 ^ 46) 51 (86 * 2 ^ 46) (1 / 2) he (by norm_num)
    (by norm_num [abs_lt]) (by norm_num) (by norm_num)
  unfold CDouble.ofUInt64
  rw [show (((43 * 2 ^ 46 : ℕ)) : ℚ) = 43 * 2 ^ 46 by norm_num, h]
  norm_num

theorem ofUInt64_zero : CDouble.ofUInt64 0 = CDouble.fin 0 := by
  unfold CDouble.ofUInt64
  rw [Nat.cast_zero, round_zero]

/-- The binary64 value of 1609.34 is a fixed point of the rounding. -/
theorem round_mi_value :
    CDouble.round (7077952172180111 / 4398046511104) =
      CDouble.fin (7077952172180111 / 4398046511104) := by
  have he := binade_normal (7077952172180111 / 4398046511104) 10 (by norm_num [abs_of_pos])
    (by norm_num [abs_of_pos]) (by norm_num)
  have h := round_eq (7077952172180111 / 4398046511104) 10 7077952172180111
    (1 / 4398046511104) he (by norm_num) (by norm_num [abs_lt]) (by norm_num) (by norm_num)
  rw [h]
  norm_num

/-- The binary64 value of the constant 1.60934. -/
theorem round_km_radius :
    CDouble.round 1.60934 = CDouble.fin (3623911512156217 / 2251799813685248) := by
  have he := binade_normal 1.60934 0 (by norm_num [abs_of_pos]) (by norm_num [abs_of_pos])
    (by norm_num)
  have h := round_eq 1.60934 0 7247823024312434 (1 / 4503599627370496) he (by norm_num)
    (by norm_num [abs_lt]) (by norm_num) (by norm_num)
  rw [h]
  norm_num

/-- The binary64 product of the binary64 value of 1.60934 and 1000. -/
theorem round_km_product :
    CDouble.round (3623911512156217 / 2251799813685248 * 1000) =
      CDouble.fin (7077952172180111 / 4398046511104) := by
  have he := binade_normal (3623911512156217 / 2251799813685248 * 1000) 10
    (by norm_num [abs_of_pos]) (by norm_num [abs_of_pos]) (by norm_num)
  have h := round_eq (3623911512156217 / 2251799813685248 * 1000) 10 7077952172180111
    (1 / 4398046511104) he (by norm_num) (by norm_num [abs_lt]) (by norm_num) (by norm_num)
  rw [h]
  norm_num

/-- The product of the smallest positive binary64 value and the binary64 value of 0.3048
underflows to 0. -/
theorem round_underflow_ft :
    CDouble.round (1 / 2 ^ 1074 * (5490788665690109 / 18014398509481984)) = CDouble.fin 0 := by
  have he := binade_subnormal (1 / 2 ^ 1074 * (5490788665690109 / 18014398509481984))
    (by norm_num) (by norm_num [abs_of_pos])
  have h := round_eq (1 / 2 ^ 1074 * (5490788665690109 / 18014398509481984)) (-1022) 0
    (1 / 2 ^ 1074) he (by norm_num) (by norm_num [abs_lt]) (by norm_num) (by norm_num)
  rw [h]
  norm_num

/-! ## Comparisons of doubles -/

theorem decide_lt_eq_not_le (a b : ℚ) : decide (a < b) = !decide (b ≤ a) := by
  by_cases h : a < b
  · simp [h]
  · simp [h, not_lt.mp h]

theorem CDouble.gt_eq_not_le (a b : CDouble) (ha : a ≠ CDouble.nan) (hb : b ≠ CDouble.nan) :
    CDouble.gt a b = !CDouble.le a b := by
  cases a <;> cases b <;>
    simp_all [CDouble.gt, CDouble.lt, CDouble.le, decide_lt_eq_not_le]

theorem CDouble.lt_eq_not_le (a b : CDouble) (ha : a ≠ CDouble.nan) (hb : b ≠ CDouble.nan) :
    CDouble.lt a b = !CDouble.le b a := by
  cases a <;> cases b <;> simp_all [CDouble.lt, CDouble.le, decide_lt_eq_not_le]

/-! ## C4 -/

/-- For coordinates and a radius that are not NaN, `GeoFilter_Validate` returns 1 exactly
when the unit is not the invalid sentinel, `-90 ≤ lat ≤ 90`, `-180 ≤ lon ≤ 180` and
`radius > 0`, and 0 otherwise. -/
theorem GeoFilter_Validate_iff_of_not_nan (gf : GeoFilter) (hlat : gf.lat ≠ CDouble.nan)
    (hlon : gf.lon ≠ CDouble.nan) (hrad : gf.radius ≠ CDouble.nan) :
    ((GeoFilter_Validate gf).1 = 1 ↔
        gf.unitType ≠ GEO_DISTANCE_INVALID ∧
          CDouble.le (CDouble.fin (-90)) gf.lat = true ∧
          CDouble.le gf.lat (CDouble.fin 90) = true ∧
          CDouble.le (CDouble.fin (-180)) gf.lon = true ∧
          CDouble.le gf.lon (CDouble.fin 180) = true ∧
          CDouble.gt gf.radius (CDouble.fin 0) = true) ∧
      ((GeoFilter_Validate gf).1 = 1 ∨ (GeoFilter_Validate gf).1 = 0) := by
  have h1 := CDouble.gt_eq_not_le gf.lat (CDouble.fin 90) hlat (by simp)
  have h2 := CDouble.lt_eq_not_le gf.lat (CDouble.fin (-90)) hlat (by simp)
  have h3 := CDouble.gt_eq_not_le gf.lon (CDouble.fin 180) hlon (by simp)
  have h4 := CDouble.lt_eq_not_le gf.lon (CDouble.fin (-180)) hlon (by simp)
  have h5 := CDouble.gt_eq_not_le gf.radius (CDouble.fin 0) hrad (by simp)
  unfold GeoFilter_Validate
  rw [h1, h2, h3, h4, h5]
  by_cases hu : gf.unitType = GEO_DISTANCE_INVALID
  · simp [hu]
  · cases hA : CDouble.le gf.lat (CDouble.fin 90) <;>
      cases hB : CDouble.le (CDouble.fin (-90)) gf.lat <;>
      cases hC : CDouble.le gf.lon (CDouble.fin 180) <;>
      cases hD : CDouble.le (CDouble.fin (-180)) gf.lon <;>
      cases hE : CDouble.le gf.radius (CDouble.fin 0) <;>
      simp [hu]

theorem GeoFilter_Validate_iff_of_not_nan_witness :
    unitFilter.lat ≠ CDouble.nan ∧ unitFilter.lon ≠ CDouble.nan ∧
      unitFilter.radius ≠ CDouble.nan ∧
      ((GeoFilter_Validate unitFilter).1 = 1 ↔
        unitFilter.unitType ≠ GEO_DISTANCE_INVALID ∧
          CDouble.le (CDouble.fin (-90)) unitFilter.lat = true ∧
          CDouble.le unitFilter.lat (CDouble.fin 90) = true ∧
          CDouble.le (CDouble.fin (-180)) unitFilter.lon = true ∧
          CDouble.le unitFilter.lon (CDouble.fin 180) = true ∧
          CDouble.gt unitFilter.radius (CDouble.fin 0) = true) :=
  ⟨by decide, by decide, by decide,
    (GeoFilter_Validate_iff_of_not_nan unitFilter (by decide) (by decide) (by decide)).1⟩

/-- C4: `GeoFilter_Validate` returns 1 for a filter whose latitude is NaN (likewise for a
NaN longitude or a NaN radius), although NaN is not within `[-90, 90]` (resp. not `> 0`):
each of its comparisons is false on NaN, so no rejecting branch is taken.  The boundary
values `lat = ±90`, `lon = ±180` are accepted. -/
theorem GeoFilter_Validate_accepts_nan :
    (GeoFilter_Validate
        (NewGeoFilter (CDouble.fin 0) CDouble.nan (CDouble.fin 1) (some "km".toList))).1 = 1 ∧
      CDouble.le (CDouble.fin (-90)) CDouble.nan = false ∧
      CDouble.le CDouble.nan (CDouble.fin 90) = false ∧
      (GeoFilter_Validate
        (NewGeoFilter CDouble.nan (CDouble.fin 0) (CDouble.fin 1) (some "km".toList))).1 = 1 ∧
      CDouble.le (CDouble.fin (-180)) CDouble.nan = false ∧
      (GeoFilter_Validate
        (NewGeoFilter (CDouble.fin 0) (CDouble.fin 0) CDouble.nan (some "km".toList))).1 = 1 ∧
      CDouble.gt CDouble.nan (CDouble.fin 0) = false ∧
      (GeoFilter_Validate
        (NewGeoFilter (CDouble.fin 180) (CDouble.fin 90) (CDouble.fin 1)
          (some "km".toList))).1 = 1 ∧
      (GeoFilter_Validate
        (NewGeoFilter (CDouble.fin (-180)) (CDouble.fin (-90)) (CDouble.fin 1)
          (some "km".toList))).1 = 1 := by
  decide

/-! ## C5 -/

theorem calcRanges_written
    (g : CDouble → CDouble → CDouble → GeoHashRadius) (gf : GeoFilter) (j : Fin 9)
    (hpos : CDouble.lt (radius_meters gf) (CDouble.fin 0) = false)
    (hj : j ∈ writtenSlots (g gf.lon gf.lat (radius_meters gf)) gf) :
    (calcRanges g gf).2.ranges j =
      scoresOfGeoHashBox (neighborsArray (g gf.lon gf.lat (radius_meters gf)) j) := by
  unfold calcRanges
  simp only [hpos]
  exact ((loopInv_final _ gf.ranges).written_val j hj).1

theorem unitFilter_radius_meters : radius_meters unitFilter = CDouble.fin 1000 := by
  have hu : unitFilter.unitType = GEO_DISTANCE_KM := by decide
  have hr : unitFilter.radius = CDouble.fin 1 := rfl
  simp only [radius_meters, hu, hr, extractUnitFactor, CDouble.mul]
  rw [one_mul, round_1000]

theorem unitFilter_radius_ok :
    CDouble.lt (radius_meters unitFilter) (CDouble.fin 0) = false := by
  rw [unitFilter_radius_meters]
  decide

/-- C5: the numeric filter `NewGeoRangeIterator` builds for a slot is created with both
inclusion flags set (`NewNumericFilter(min, max, 1, 1)`), so the lookup is the closed
range `[min, max]`: for the filter `NewGeoFilter(0, 0, 1, "km")` on the cover `poleCover`,
slot 0 is `[42 * 2 ^ 46, 43 * 2 ^ 46]` and a stored scalar equal to `max = 43 * 2 ^ 46`,
the first scalar of the sibling cell, is admitted. -/
theorem NewGeoRangeIterator_admits_max :
    (∀ (g : CDouble → CDouble → CDouble → GeoHashRadius) (gi : GeoIndex) (gf : GeoFilter)
        (weight : CDouble) (ii : Fin 9),
        ((NewGeoRangeIterator g gi gf weight).2.its ii).inclusiveMin = 1 ∧
          ((NewGeoRangeIterator g gi gf weight).2.its ii).inclusiveMax = 1) ∧
      (NewGeoRangeIterator (fun _ _ _ => poleCover) ⟨[], 0⟩ unitFilter (CDouble.fin 1)).2.its 0 =
        NewNumericFilter (CDouble.fin (42 * 2 ^ 46)) (CDouble.fin (43 * 2 ^ 46)) 1 1 ∧
      NumericFilter_Match
        ((NewGeoRangeIterator (fun _ _ _ => poleCover) ⟨[], 0⟩ unitFilter
          (CDouble.fin 1)).2.its 0)
        (CDouble.fin (43 * 2 ^ 46)) = true ∧
      (scoresOfGeoHashBox ⟨43, 3⟩).1 = 43 * 2 ^ 46 := by
  have hr : (calcRanges (fun _ _ _ => poleCover) unitFilter).2.ranges 0 =
      (42 * 2 ^ 46, 43 * 2 ^ 46) := by
    rw [calcRanges_written (fun _ _ _ => poleCover) unitFilter 0 unitFilter_radius_ok
      (by decide)]
    decide
  have h0 : (NewGeoRangeIterator (fun _ _ _ => poleCover) ⟨[], 0⟩ unitFilter
      (CDouble.fin 1)).2.its 0 =
      NewNumericFilter (CDouble.fin (42 * 2 ^ 46)) (CDouble.fin (43 * 2 ^ 46)) 1 1 := by
    show NewNumericFilter
      (CDouble.ofUInt64 ((calcRanges (fun _ _ _ => poleCover) unitFilter).2.ranges 0).1)
      (CDouble.ofUInt64 ((calcRanges (fun _ _ _ => poleCover) unitFilter).2.ranges 0).2) 1 1 = _
    rw [hr]
    show NewNumericFilter (CDouble.ofUInt64 (42 * 2 ^ 46)) (CDouble.ofUInt64 (43 * 2 ^ 46))
      1 1 = _
    rw [ofUInt64_slot_min, ofUInt64_slot_max]
  refine ⟨fun _ _ _ _ _ => ⟨rfl, rfl⟩, h0, ?_, by decide⟩
  rw [h0]
  simp only [NumericFilter_Match, NewNumericFilter, CDouble.ge, CDouble.le]
  norm_num

/-! ## Unit tokens -/

theorem char_eq_of_toNat_eq (a b : Char) (h : a.toNat = b.toNat) : a = b := by
  rw [← Char.ofNat_toNat a, ← Char.ofNat_toNat b, h]

theorem strcasecmp_eq_zero_iff (a : List Char) :
    ∀ b : List Char, strcasecmp a b = 0 ↔ a.map tolower = b.map tolower := by
  induction a with
  | nil =>
    intro b
    cases b with
    | nil => simp [strcasecmp]
    | cons y ys => simp [strcasecmp]
  | cons x xs ih =>
    intro b
    cases b with
    | nil => simp [strcasecmp]
    | cons y ys =>
      unfold strcasecmp
      by_cases h1 : (tolower x).toNat < (tolower y).toNat
      · have hne : tolower x ≠ tolower y := fun e => by rw [e] at h1; omega
        simp [h1, hne]
      · by_cases h2 : (tolower y).toNat < (tolower x).toNat
        · have hne : tolower x ≠ tolower y := fun e => by rw [e] at h2; omega
          simp [h1, h2, hne]
        · have heq : tolower x = tolower y := char_eq_of_toNat_eq _ _ (by omega)
          simp [h1, h2, heq, ih ys]

theorem tolower_eq_iff (t u c : Char) (ht : ¬ (65 ≤ t.toNat ∧ t.toNat ≤ 90))
    (hu : ∀ n, 65 ≤ n → n ≤ 90 → (Char.ofNat (n + 32) = t ↔ Char.ofNat n = u))
    (hut : tolower u = t) :
    tolower c = t ↔ c = t ∨ c = u := by
  constructor
  · intro h
    unfold tolower at h
    by_cases hc : 65 ≤ c.toNat ∧ c.toNat ≤ 90
    · rw [if_pos hc] at h
      right
      have := (hu c.toNat hc.1 hc.2).1 h
      rwa [Char.ofNat_toNat] at this
    · rw [if_neg hc] at h
      exact Or.inl h
  · rintro (h | h)
    · subst h
      unfold tolower
      rw [if_neg ht]
    · subst h
      exact hut

theorem tolower_eq_k (c : Char) : tolower c = 'k' ↔ c = 'k' ∨ c = 'K' :=
  tolower_eq_iff 'k' 'K' c (by decide)
    (by intro n h1 h2; interval_cases n <;> decide) (by decide)

theorem tolower_eq_m (c : Char) : tolower c = 'm' ↔ c = 'm' ∨ c = 'M' :=
  tolower_eq_iff 'm' 'M' c (by decide)
    (by intro n h1 h2; interval_cases n <;> decide) (by decide)

theorem tolower_eq_f (c : Char) : tolower c = 'f' ↔ c = 'f' ∨ c = 'F' :=
  tolower_eq_iff 'f' 'F' c (by decide)
    (by intro n h1 h2; interval_cases n <;> decide) (by decide)

theorem tolower_eq_t (c : Char) : tolower c = 't' ↔ c = 't' ∨ c = 'T' :=
  tolower_eq_iff 't' 'T' c (by decide)
    (by intro n h1 h2; interval_cases n <;> decide) (by decide)

theorem tolower_eq_i (c : Char) : tolower c = 'i' ↔ c = 'i' ∨ c = 'I' :=
  tolower_eq_iff 'i' 'I' c (by decide)
    (by intro n h1 h2; interval_cases n <;> decide) (by decide)

theorem fold_one (s : List Char) (t u : Char)
    (h : ∀ c, tolower c = t ↔ c = t ∨ c = u) :
    s.map tolower = [t] ↔ s ∈ [[t], [u]] := by
  match s with
  | [] => simp
  | [a] => simp [h a]
  | _ :: _ :: _ => simp

theorem fold_two (s : List Char) (t1 u1 t2 u2 : Char)
    (h1 : ∀ c, tolower c = t1 ↔ c = t1 ∨ c = u1)
    (h2 : ∀ c, tolower c = t2 ↔ c = t2 ∨ c = u2) :
    s.map tolower = [t1, t2] ↔ s ∈ [[t1, t2], [t1, u2], [u1, t2], [u1, u2]] := by
  match s with
  | [] => simp
  | [a] => simp
  | [a, b] =>
    simp only [List.map, List.cons.injEq, and_true, h1 a, h2 b, List.mem_cons,
      List.mem_singleton, List.not_mem_nil, or_false]
    tauto
  | _ :: _ :: _ :: _ => simp

theorem parse_chain (x a b c d : List Char) (d1 : a ≠ b) (d2 : a ≠ c) (d3 : a ≠ d)
    (d4 : b ≠ c) (d5 : b ≠ d) (d6 : c ≠ d) (r : GeoDistance)
    (hr : r = if a = x then GEO_DISTANCE_KM else if b = x then GEO_DISTANCE_M
      else if c = x then GEO_DISTANCE_FT else if d = x then GEO_DISTANCE_MI
      else GEO_DISTANCE_INVALID) :
    (r = GEO_DISTANCE_KM ↔ x = a) ∧ (r = GEO_DISTANCE_M ↔ x = b) ∧
      (r = GEO_DISTANCE_FT ↔ x = c) ∧ (r = GEO_DISTANCE_MI ↔ x = d) ∧
      (r = GEO_DISTANCE_INVALID ↔ ¬ (x = a ∨ x = b ∨ x = c ∨ x = d)) := by
  by_cases c1 : a = x
  · subst c1
    rw [if_pos rfl] at hr
    subst hr
    simp [d1, d2, d3]
  · rw [if_neg c1] at hr
    by_cases c2 : b = x
    · subst c2
      rw [if_pos rfl] at hr
      subst hr
      simp [d1.symm, d4, d5]
    · rw [if_neg c2] at hr
      by_cases c3 : c = x
      · subst c3
        rw [if_pos rfl] at hr
        subst hr
        simp [d2.symm, d4.symm, d6]
      · rw [if_neg c3] at hr
        by_cases c4 : d = x
        · subst c4
          rw [if_pos rfl] at hr
          subst hr
          simp [d3.symm, d5.symm, d6.symm]
        · rw [if_neg c4] at hr
          subst hr
          simp [Ne.symm c1, Ne.symm c2, Ne.symm c3, Ne.symm c4]

theorem parse_cases (s : List Char) :
    (GeoDistance_Parse s = GEO_DISTANCE_KM ↔ s.map tolower = ['k', 'm']) ∧
      (GeoDistance_Parse s = GEO_DISTANCE_M ↔ s.map tolower = ['m']) ∧
      (GeoDistance_Parse s = GEO_DISTANCE_FT ↔ s.map tolower = ['f', 't']) ∧
      (GeoDistance_Parse s = GEO_DISTANCE_MI ↔ s.map tolower = ['m', 'i']) ∧
      (GeoDistance_Parse s = GEO_DISTANCE_INVALID ↔
        ¬ (s.map tolower = ['k', 'm'] ∨ s.map tolower = ['m'] ∨
          s.map tolower = ['f', 't'] ∨ s.map tolower = ['m', 'i'])) := by
  apply parse_chain (s.map tolower) ['k', 'm'] ['m'] ['f', 't'] ['m', 'i']
    (by decide) (by decide) (by decide) (by decide) (by decide) (by decide)
  unfold GeoDistance_Parse
  have hkm : ['k', 'm'].map tolower = ['k', 'm'] := by decide
  have hm : ['m'].map tolower = ['m'] := by decide
  have hft : ['f', 't'].map tolower = ['f', 't'] := by decide
  have hmi : ['m', 'i'].map tolower = ['m', 'i'] := by decide
  show (if strcasecmp ['k', 'm'] s = 0 then _ else if strcasecmp ['m'] s = 0 then _
    else if strcasecmp ['f', 't'] s = 0 then _ else if strcasecmp ['m', 'i'] s = 0 then _
    else _) = _
  simp only [strcasecmp_eq_zero_iff, hkm, hm, hft, hmi]

/-! ## C6 -/

/-- C6: `GeoDistance_Parse` compares its argument, letter case ignored, with exactly the
four tokens: it returns KM, M, FT or MI exactly for the upper/lower-case spellings of
"km", "m", "ft", "mi", and `GEO_DISTANCE_INVALID` for every other string. -/
theorem GeoDistance_Parse_tokens (s : List Char) :
    (GeoDistance_Parse s = GEO_DISTANCE_KM ↔
        s ∈ ["km".toList, "kM".toList, "Km".toList, "KM".toList]) ∧
      (GeoDistance_Parse s = GEO_DISTANCE_M ↔ s ∈ ["m".toList, "M".toList]) ∧
      (GeoDistance_Parse s = GEO_DISTANCE_FT ↔
        s ∈ ["ft".toList, "fT".toList, "Ft".toList, "FT".toList]) ∧
      (GeoDistance_Parse s = GEO_DISTANCE_MI ↔
        s ∈ ["mi".toList, "mI".toList, "Mi".toList, "MI".toList]) ∧
      (GeoDistance_Parse s = GEO_DISTANCE_INVALID ↔
        s ∉ ["km".toList, "kM".toList, "Km".toList, "KM".toList] ++
          ["m".toList, "M".toList] ++
          ["ft".toList, "fT".toList, "Ft".toList, "FT".toList] ++
          ["mi".toList, "mI".toList, "Mi".toList, "MI".toList]) := by
  obtain ⟨p1, p2, p3, p4, p5⟩ := parse_cases s
  have e1 := fold_two s 'k' 'K' 'm' 'M' tolower_eq_k tolower_eq_m
  have e2 := fold_one s 'm' 'M' tolower_eq_m
  have e3 := fold_two s 'f' 'F' 't' 'T' tolower_eq_f tolower_eq_t
  have e4 := fold_two s 'm' 'M' 'i' 'I' tolower_eq_m tolower_eq_i
  rw [e1, e2, e3, e4] at p5
  refine ⟨p1.trans e1, p2.trans e2, p3.trans e3, p4.trans e4, ?_⟩
  rw [p5, List.mem_append, List.mem_append, List.mem_append, or_assoc, or_assoc]
  exact Iff.rfl

/-! ## C7 -/

theorem ft_value :
    (extractUnitFactor GEO_DISTANCE_FT).rv =
      CDouble.fin (5490788665690109 / 18014398509481984) := round_ft

theorem mi_value :
    (extractUnitFactor GEO_DISTANCE_MI).rv =
      CDouble.fin (7077952172180111 / 4398046511104) := round_mi

/-- C7, as stated, fails: the factor `extractUnitFactor` returns for feet is the binary64
value `5490788665690109 / 2 ^ 54`, not 381/1250, and the one for miles is
`7077952172180111 / 2 ^ 42`, not 80467/50; and the radius in meters is a rounded
product: for the radius `2 ^ (-1074)` in feet it is 0, not the radius times the factor. -/
theorem extractUnitFactor_not_decimal :
    (extractUnitFactor GEO_DISTANCE_FT).rv =
        CDouble.fin (5490788665690109 / 18014398509481984) ∧
      (5490788665690109 / 18014398509481984 : ℚ) ≠ 381 / 1250 ∧
      (extractUnitFactor GEO_DISTANCE_MI).rv =
        CDouble.fin (7077952172180111 / 4398046511104) ∧
      (7077952172180111 / 4398046511104 : ℚ) ≠ 80467 / 50 ∧
      radius_meters (NewGeoFilter (CDouble.fin 0) (CDouble.fin 0) (CDouble.fin (1 / 2 ^ 1074))
        (some "ft".toList)) = CDouble.fin 0 ∧
      (1 / 2 ^ 1074 : ℚ) * (5490788665690109 / 18014398509481984) ≠ 0 := by
  refine ⟨ft_value, by norm_num, mi_value, by norm_num, ?_, by norm_num⟩
  have hu : (NewGeoFilter (CDouble.fin 0) (CDouble.fin 0) (CDouble.fin (1 / 2 ^ 1074))
      (some "ft".toList)).unitType = GEO_DISTANCE_FT := by
    show GeoDistance_Parse "ft".toList = GEO_DISTANCE_FT
    decide
  have hr : (NewGeoFilter (CDouble.fin 0) (CDouble.fin 0) (CDouble.fin (1 / 2 ^ 1074))
      (some "ft".toList)).radius = CDouble.fin (1 / 2 ^ 1074) := rfl
  unfold radius_meters
  rw [hu, hr, ft_value]
  exact round_underflow_ft

/-- C7, amended: `extractUnitFactor` returns exactly 1 for meters and 1000 for
kilometers, and for feet and miles the binary64 values nearest to 0.3048 = 381/1250 and
1609.34 = 80467/50, namely `5490788665690109 / 2 ^ 54` and `7077952172180111 / 2 ^ 42`,
which are within `2 ^ (-55)` and `2 ^ (-43)` of them; it does not reach its assertion.
The `radius_meters` of `calcRanges` is the binary64 product of the radius and that
factor: for a finite radius `r` the rounding of `r`, `r * 1000`, `r * ft`, `r * mi`; it
is the value `calcRanges` tests and hands to the geodesy primitive. -/
theorem extractUnitFactor_table (gf : GeoFilter) (r : ℚ)
    (g : CDouble → CDouble → CDouble → GeoHashRadius) :
    extractUnitFactor GEO_DISTANCE_M = ⟨CDouble.fin 1, false⟩ ∧
      extractUnitFactor GEO_DISTANCE_KM = ⟨CDouble.fin 1000, false⟩ ∧
      extractUnitFactor GEO_DISTANCE_FT = ⟨CDouble.round (381 / 1250), false⟩ ∧
      extractUnitFactor GEO_DISTANCE_MI = ⟨CDouble.round (80467 / 50), false⟩ ∧
      extractUnitFactor GEO_DISTANCE_FT =
        ⟨CDouble.fin (5490788665690109 / 18014398509481984), false⟩ ∧
      extractUnitFactor GEO_DISTANCE_MI =
        ⟨CDouble.fin (7077952172180111 / 4398046511104), false⟩ ∧
      |(5490788665690109 / 18014398509481984 : ℚ) - 381 / 1250| < 1 / 2 ^ 55 ∧
      |(7077952172180111 / 4398046511104 : ℚ) - 80467 / 50| < 1 / 2 ^ 43 ∧
      radius_meters gf = CDouble.mul gf.radius (extractUnitFactor gf.unitType).rv ∧
      radius_meters { gf with radius := CDouble.fin r, unitType := GEO_DISTANCE_M } =
        CDouble.round (r * 1) ∧
      radius_meters { gf with radius := CDouble.fin r, unitType := GEO_DISTANCE_KM } =
        CDouble.round (r * 1000) ∧
      radius_meters { gf with radius := CDouble.fin r, unitType := GEO_DISTANCE_FT } =
        CDouble.round (r * (5490788665690109 / 18014398509481984)) ∧
      radius_meters { gf with radius := CDouble.fin r, unitType := GEO_DISTANCE_MI } =
        CDouble.round (r * (7077952172180111 / 4398046511104)) ∧
      calcRanges g gf =
        if CDouble.lt (radius_meters gf) (CDouble.fin 0) then (-1, gf)
        else (0, calcAllNeighbors (g gf.lon gf.lat (radius_meters gf)) gf.lon gf.lat
          (radius_meters gf) gf) := by
  have hft : extractUnitFactor GEO_DISTANCE_FT =
      ⟨CDouble.fin (5490788665690109 / 18014398509481984), false⟩ := by
    show (⟨CDouble.round 0.3048, false⟩ : UnitFactor) = _
    rw [round_ft]
  have hmi : extractUnitFactor GEO_DISTANCE_MI =
      ⟨CDouble.fin (7077952172180111 / 4398046511104), false⟩ := by
    show (⟨CDouble.round 1609.34, false⟩ : UnitFactor) = _
    rw [round_mi]
  refine ⟨rfl, rfl, ?_, ?_, hft, hmi, ?_, ?_, rfl, rfl, rfl, ?_, ?_, rfl⟩
  · show (⟨CDouble.round 0.3048, false⟩ : UnitFactor) = _
    rw [show (0.3048 : ℚ) = 381 / 1250 by norm_num]
  · show (⟨CDouble.round 1609.34, false⟩ : UnitFactor) = _
    rw [show (1609.34 : ℚ) = 80467 / 50 by norm_num]
  · rw [abs_lt]
    constructor <;> norm_num
  · rw [abs_lt]
    constructor <;> norm_num
  · unfold radius_meters
    simp only [hft]
    rfl
  · unfold radius_meters
    simp only [hmi]
    rfl

/-! ## C8 -/

/-- C8, as stated, fails: with a NaN radius `isWithinRadius` returns 1 although the
computed distance (here 0) is not `<=` the radius. -/
theorem isWithinRadius_nan_radius :
    (isWithinRadius (fun _ => (1, (CDouble.fin 0, CDouble.fin 0)))
        (fun _ _ _ _ => CDouble.fin 0) (CDouble.fin 0) (CDouble.fin 0) CDouble.nan).1 = 1 ∧
      CDouble.le
        (decodedDistance (fun _ => (1, (CDouble.fin 0, CDouble.fin 0)))
          (fun _ _ _ _ => CDouble.fin 0) (CDouble.fin 0) (CDouble.fin 0))
        CDouble.nan = false := by
  decide

/-- C8, amended: `isWithinRadius` stores the computed distance in `*distance` in every
case, returns 0 exactly when that distance is `>` the radius and 1 otherwise; when
neither the distance nor the radius is NaN it returns 1 exactly when the distance is
`<=` the radius (equality included) and 0 otherwise. -/
theorem isWithinRadius_inclusive
    (dec : GeoHashBits → Int × (CDouble × CDouble))
    (dist : CDouble → CDouble → CDouble → CDouble → CDouble)
    (center point radius : CDouble) :
    (isWithinRadius dec dist center point radius).2 = decodedDistance dec dist center point ∧
      ((isWithinRadius dec dist center point radius).1 = 0 ↔
        CDouble.gt (decodedDistance dec dist center point) radius = true) ∧
      ((isWithinRadius dec dist center point radius).1 = 1 ↔
        CDouble.gt (decodedDistance dec dist center point) radius = false) ∧
      (decodedDistance dec dist center point ≠ CDouble.nan → radius ≠ CDouble.nan →
        ((isWithinRadius dec dist center point radius).1 = 1 ↔
            CDouble.le (decodedDistance dec dist center point) radius = true) ∧
          ((isWithinRadius dec dist center point radius).1 = 0 ↔
            CDouble.le (decodedDistance dec dist center point) radius = false)) := by
  have hdef : isWithinRadius dec dist center point radius =
      if CDouble.gt (decodedDistance dec dist center point) radius = true
      then ((0 : Int), decodedDistance dec dist center point)
      else (1, decodedDistance dec dist center point) := rfl
  rw [hdef]
  refine ⟨?_, ?_, ?_, ?_⟩
  · split <;> rfl
  · cases CDouble.gt (decodedDistance dec dist center point) radius <;> simp
  · cases CDouble.gt (decodedDistance dec dist center point) radius <;> simp
  · intro hd hr
    rw [CDouble.gt_eq_not_le _ _ hd hr]
    cases CDouble.le (decodedDistance dec dist center point) radius <;> simp

theorem isWithinRadius_inclusive_witness :
    decodedDistance (fun _ => (1, (CDouble.fin 0, CDouble.fin 0)))
        (fun _ _ _ _ => CDouble.fin 5) (CDouble.fin 0) (CDouble.fin 0) ≠ CDouble.nan ∧
      CDouble.fin 5 ≠ CDouble.nan ∧
      ((isWithinRadius (fun _ => (1, (CDouble.fin 0, CDouble.fin 0)))
          (fun _ _ _ _ => CDouble.fin 5) (CDouble.fin 0) (CDouble.fin 0) (CDouble.fin 5)).1 = 1 ↔
        CDouble.le
          (decodedDistance (fun _ => (1, (CDouble.fin 0, CDouble.fin 0)))
            (fun _ _ _ _ => CDouble.fin 5) (CDouble.fin 0) (CDouble.fin 0))
          (CDouble.fin 5) = true) :=
  ⟨by decide, by decide,
    ((isWithinRadius_inclusive (fun _ => (1, (CDouble.fin 0, CDouble.fin 0)))
      (fun _ _ _ _ => CDouble.fin 5) (CDouble.fin 0) (CDouble.fin 0) (CDouble.fin 5)).2.2.2
      (by decide) (by decide)).1⟩

/-! ## C9 -/

/-- C9: `GeoDistance_Parse` inverts `GeoDistance_ToString` on every value of the
enumeration: each of KM, M, FT, MI is rendered as its token and parsed back to itself,
and the invalid sentinel is rendered as "<badunit>", which parses back to the sentinel. -/
theorem GeoDistance_Parse_ToString (d : GeoDistance) :
    GeoDistance_Parse (GeoDistance_ToString d) = d ∧
      GeoDistance_ToString GEO_DISTANCE_KM = "km".toList ∧
      GeoDistance_ToString GEO_DISTANCE_M = "m".toList ∧
      GeoDistance_ToString GEO_DISTANCE_FT = "ft".toList ∧
      GeoDistance_ToString GEO_DISTANCE_MI = "mi".toList ∧
      GeoDistance_ToString GEO_DISTANCE_INVALID = "<badunit>".toList ∧
      GeoDistance_Parse "<badunit>".toList = GEO_DISTANCE_INVALID := by
  refine ⟨?_, by decide, by decide, by decide, by decide, by decide, by decide⟩
  cases d <;> decide

/-! ## C10 -/

theorem body_control (nb : Fin 9 → GeoHashBits) (st st' : NeighborLoop) (i : Fin 9)
    (hl : st.last_processed = st'.last_processed) (hw : st.written = st'.written) :
    (calcAllNeighbors_body nb st i).last_processed =
        (calcAllNeighbors_body nb st' i).last_processed ∧
      (calcAllNeighbors_body nb st i).written = (calcAllNeighbors_body nb st' i).written := by
  unfold calcAllNeighbors_body
  rw [hl, hw]
  split
  · exact ⟨hl, hw⟩
  · split
    · exact ⟨hl, hw⟩
    · exact ⟨rfl, rfl⟩

theorem foldl_control (nb : Fin 9 → GeoHashBits) (l : List (Fin 9)) :
    ∀ st st' : NeighborLoop, st.last_processed = st'.last_processed →
      st.written = st'.written →
      (l.foldl (calcAllNeighbors_body nb) st).written =
        (l.foldl (calcAllNeighbors_body nb) st').written := by
  induction l with
  | nil => intro st st' _ hw; exact hw
  | cons a l ih =>
    intro st st' hl hw
    have h := body_control nb st st' a hl hw
    exact ih _ _ h.1 h.2

theorem written_independent (n : GeoHashRadius) (r r' : Fin 9 → Nat × Nat) :
    (calcAllNeighbors_loop n r).written = (calcAllNeighbors_loop n r').written :=
  foldl_control (neighborsArray n) slots _ _ rfl rfl

theorem calcRanges_unwritten
    (g : CDouble → CDouble → CDouble → GeoHashRadius) (gf : GeoFilter) (j : Fin 9)
    (hj : j ∉ writtenSlots (g gf.lon gf.lat (radius_meters gf)) gf) :
    (calcRanges g gf).2.ranges j = gf.ranges j := by
  unfold calcRanges
  by_cases hneg : CDouble.lt (radius_meters gf) (CDouble.fin 0) = true
  · simp [hneg]
  · simp only [hneg]
    exact (loopInv_final _ gf.ranges).unwritten j hj

/-- C10, as stated, fails: on the cover `poleCover`, whose north cell is empty, slot 1 is
not stored to, so a filter whose `ranges` held `[5, 7)` keeps it there while a fresh
filter keeps `[0, 0)`; centre, radius and unit are the same in both. -/
theorem calcRanges_keeps_skipped_slots :
    unitFilter.lon = staleFilter.lon ∧ unitFilter.lat = staleFilter.lat ∧
      unitFilter.radius = staleFilter.radius ∧ unitFilter.unitType = staleFilter.unitType ∧
      (calcRanges (fun _ _ _ => poleCover) unitFilter).2.ranges 1 = (0, 0) ∧
      (calcRanges (fun _ _ _ => poleCover) staleFilter).2.ranges 1 = (5, 7) ∧
      (calcAllNeighbors poleCover (CDouble.fin 0) (CDouble.fin 0) (CDouble.fin 1000)
          unitFilter).ranges 1 ≠
        (calcAllNeighbors poleCover (CDouble.fin 0) (CDouble.fin 0) (CDouble.fin 1000)
          staleFilter).ranges 1 :=
  ⟨rfl, rfl, rfl, rfl,
    calcRanges_unwritten (fun _ _ _ => poleCover) unitFilter 1 (by decide),
    calcRanges_unwritten (fun _ _ _ => poleCover) staleFilter 1 (by decide),
    by decide⟩

/-- C10, amended: for one cover and any two filters, `calcAllNeighbors` stores to the
same slots, the two results agree on every slot stored to, and every other slot keeps
what it held before the call; so the two results agree in all nine slots exactly when
the two initial arrays agree on the slots not stored to (as two fresh filters do). -/
theorem calcAllNeighbors_replaces_written_slots (n : GeoHashRadius)
    (lon lat radius : CDouble) (gf gf' : GeoFilter) :
    writtenSlots n gf = writtenSlots n gf' ∧
      (∀ j ∈ writtenSlots n gf,
        (calcAllNeighbors n lon lat radius gf).ranges j =
          (calcAllNeighbors n lon lat radius gf').ranges j) ∧
      (∀ j, j ∉ writtenSlots n gf →
        (calcAllNeighbors n lon lat radius gf).ranges j = gf.ranges j ∧
          (calcAllNeighbors n lon lat radius gf').ranges j = gf'.ranges j) ∧
      ((∀ j, (calcAllNeighbors n lon lat radius gf).ranges j =
          (calcAllNeighbors n lon lat radius gf').ranges j) ↔
        ∀ j, j ∉ writtenSlots n gf → gf.ranges j = gf'.ranges j) := by
  have hw : writtenSlots n gf = writtenSlots n gf' := written_independent n _ _
  have h1 := loopInv_final n gf.ranges
  have h2 := loopInv_final n gf'.ranges
  have hin : ∀ j ∈ writtenSlots n gf,
      (calcAllNeighbors n lon lat radius gf).ranges j =
        (calcAllNeighbors n lon lat radius gf').ranges j := by
    intro j hj
    have hj' : j ∈ writtenSlots n gf' := hw ▸ hj
    exact ((h1.written_val j hj).1).trans ((h2.written_val j hj').1).symm
  have hout : ∀ j, j ∉ writtenSlots n gf →
      (calcAllNeighbors n lon lat radius gf).ranges j = gf.ranges j ∧
        (calcAllNeighbors n lon lat radius gf').ranges j = gf'.ranges j := by
    intro j hj
    have hj' : j ∉ writtenSlots n gf' := hw ▸ hj
    exact ⟨h1.unwritten j hj, h2.unwritten j hj'⟩
  refine ⟨hw, hin, hout, ?_, ?_⟩
  · intro hall j hj
    have := hall j
    rw [(hout j hj).1, (hout j hj).2] at this
    exact this
  · intro hag j
    by_cases hj : j ∈ writtenSlots n gf
    · exact hin j hj
    · rw [(hout j hj).1, (hout j hj).2]
      exact hag j hj

/-! ## C11 -/

theorem parse_invalid_of_no_match (token : List Char)
    (htok : token.map tolower ∉ ["km".toList, "m".toList, "ft".toList, "mi".toList]) :
    GeoDistance_Parse token = GEO_DISTANCE_INVALID := by
  apply (parse_cases token).2.2.2.2.2
  intro h
  apply htok
  rcases h with h | h | h | h
  · rw [h]; decide
  · rw [h]; decide
  · rw [h]; decide
  · rw [h]; decide

/-- C11: for a unit token that matches none of "km", "m", "ft", "mi" when letter case is
ignored, and for all `lon`, `lat` and `radius`, the filter built by `NewGeoFilter`
carries `GEO_DISTANCE_INVALID` (not the default KM), `GeoFilter_Validate` returns 0 with
the message of the invalid-unit branch whatever the coordinates and the radius are, and
every slot of `ranges` is zero. -/
theorem NewGeoFilter_invalid_unit (token : List Char) (lon lat radius : CDouble)
    (htok : token.map tolower ∉ ["km".toList, "m".toList, "ft".toList, "mi".toList]) :
    (NewGeoFilter lon lat radius (some token)).unitType = GEO_DISTANCE_INVALID ∧
      (NewGeoFilter lon lat radius (some token)).unitType ≠ GEO_DISTANCE_KM ∧
      GeoFilter_Validate (NewGeoFilter lon lat radius (some token)) =
        (0, some "Invalid GeoFilter unit") ∧
      ∀ i, (NewGeoFilter lon lat radius (some token)).ranges i = (0, 0) := by
  have hu : (NewGeoFilter lon lat radius (some token)).unitType = GEO_DISTANCE_INVALID :=
    parse_invalid_of_no_match token htok
  refine ⟨hu, ?_, ?_, fun _ => rfl⟩
  · rw [hu]; decide
  · unfold GeoFilter_Validate
    rw [if_pos hu]

theorem NewGeoFilter_invalid_unit_witness :
    "parsecs".toList.map tolower ∉ ["km".toList, "m".toList, "ft".toList, "mi".toList] ∧
      (NewGeoFilter (CDouble.fin 500) CDouble.nan (CDouble.fin (-1))
          (some "parsecs".toList)).unitType = GEO_DISTANCE_INVALID ∧
      GeoFilter_Validate
          (NewGeoFilter (CDouble.fin 500) CDouble.nan (CDouble.fin (-1))
            (some "parsecs".toList)) =
        (0, some "Invalid GeoFilter unit") :=
  ⟨by decide,
    (NewGeoFilter_invalid_unit "parsecs".toList (CDouble.fin 500) CDouble.nan
      (CDouble.fin (-1)) (by decide)).1,
    (NewGeoFilter_invalid_unit "parsecs".toList (CDouble.fin 500) CDouble.nan
      (CDouble.fin (-1)) (by decide)).2.2.1⟩

/-! ## C12 -/

theorem calcAllNeighbors_twice (n : GeoHashRadius) (lon lat radius : CDouble)
    (gf : GeoFilter) :
    calcAllNeighbors n lon lat radius (calcAllNeighbors n lon lat radius gf) =
      calcAllNeighbors n lon lat radius gf := by
  have h1 := loopInv_final n gf.ranges
  have h2 := loopInv_final n (calcAllNeighbors_loop n gf.ranges).ranges
  have hw := written_independent n (calcAllNeighbors_loop n gf.ranges).ranges gf.ranges
  have hr : (calcAllNeighbors_loop n (calcAllNeighbors_loop n gf.ranges).ranges).ranges =
      (calcAllNeighbors_loop n gf.ranges).ranges := by
    funext j
    by_cases hj : j ∈ (calcAllNeighbors_loop n gf.ranges).written
    · have hj2 :
          j ∈ (calcAllNeighbors_loop n (calcAllNeighbors_loop n gf.ranges).ranges).written := by
        rw [hw]
        exact hj
      rw [(h2.written_val j hj2).1, (h1.written_val j hj).1]
    · have hj2 :
          j ∉ (calcAllNeighbors_loop n (calcAllNeighbors_loop n gf.ranges).ranges).written := by
        rw [hw]
        exact hj
      exact h2.unwritten j hj2
  show ({ calcAllNeighbors n lon lat radius gf with
    ranges := (calcAllNeighbors_loop n (calcAllNeighbors n lon lat radius gf).ranges).ranges } :
      GeoFilter) = calcAllNeighbors n lon lat radius gf
  have hr2 : (calcAllNeighbors_loop n (calcAllNeighbors n lon lat radius gf).ranges).ranges =
      (calcAllNeighbors n lon lat radius gf).ranges := hr
  rw [hr2]

/-- C12: decomposition is idempotent.  Running `calcAllNeighbors` on the result of a
first run with the same cover leaves the filter, and so `ranges`, as the first run
produced it; likewise `calcRanges` run on the filter a first `calcRanges` left returns
the same `int` and the same filter. -/
theorem calcRanges_idempotent (n : GeoHashRadius) (lon lat radius : CDouble)
    (g : CDouble → CDouble → CDouble → GeoHashRadius) (gf : GeoFilter) :
    (calcAllNeighbors n lon lat radius (calcAllNeighbors n lon lat radius gf)).ranges =
        (calcAllNeighbors n lon lat radius gf).ranges ∧
      calcRanges g (calcRanges g gf).2 = calcRanges g gf := by
  refine ⟨by rw [calcAllNeighbors_twice], ?_⟩
  by_cases hneg : CDouble.lt (radius_meters gf) (CDouble.fin 0) = true
  · have h1 : calcRanges g gf = (-1, gf) := by
      unfold calcRanges
      simp [hneg]
    rw [h1]
    exact h1
  · have h1 : calcRanges g gf =
        (0, calcAllNeighbors (g gf.lon gf.lat (radius_meters gf)) gf.lon gf.lat
          (radius_meters gf) gf) := by
      unfold calcRanges
      simp [hneg]
    rw [h1]
    have hrm : radius_meters (calcAllNeighbors (g gf.lon gf.lat (radius_meters gf)) gf.lon
        gf.lat (radius_meters gf) gf) = radius_meters gf := rfl
    have h2 : calcRanges g (calcAllNeighbors (g gf.lon gf.lat (radius_meters gf)) gf.lon
        gf.lat (radius_meters gf) gf) =
        (0, calcAllNeighbors (g gf.lon gf.lat (radius_meters gf)) gf.lon gf.lat
          (radius_meters gf)
          (calcAllNeighbors (g gf.lon gf.lat (radius_meters gf)) gf.lon gf.lat
            (radius_meters gf) gf)) := by
      unfold calcRanges
      simp only [hrm, hneg]
      rfl
    rw [h2, calcAllNeighbors_twice]

/-! ## C13 -/

/-- C13: the union `NewGeoRangeIterator` builds does not carry the caller's weight: its
body never reads `weight`, so the result is the same for any two weights, and the weight
handed to `NewUnionIterator` is the literal 1; called with weight 2 the union has
weight 1. -/
theorem NewGeoRangeIterator_ignores_weight :
    (∀ (g : CDouble → CDouble → CDouble → GeoHashRadius) (gi : GeoIndex) (gf : GeoFilter)
        (w w' : CDouble),
        (NewGeoRangeIterator g gi gf w).2.weight = (NewGeoRangeIterator g gi gf w').2.weight ∧
          (NewGeoRangeIterator g gi gf w).2.weight = CDouble.fin 1) ∧
      (NewGeoRangeIterator (fun _ _ _ => poleCover) ⟨[], 0⟩ unitFilter
        (CDouble.fin 2)).2.weight = CDouble.fin 1 ∧
      (NewGeoRangeIterator (fun _ _ _ => poleCover) ⟨[], 0⟩ unitFilter
        (CDouble.fin 2)).2.weight ≠ CDouble.fin 2 := by
  refine ⟨fun _ _ _ _ _ => ⟨rfl, rfl⟩, rfl, ?_⟩
  show CDouble.fin 1 ≠ CDouble.fin 2
  decide

/-! ## C14 -/

theorem mileFilter_radius_meters (lon lat : CDouble) :
    radius_meters (NewGeoFilter lon lat (CDouble.fin 1) (some "mi".toList)) =
      CDouble.fin (7077952172180111 / 4398046511104) := by
  have hu : (NewGeoFilter lon lat (CDouble.fin 1) (some "mi".toList)).unitType =
      GEO_DISTANCE_MI := by
    show GeoDistance_Parse "mi".toList = GEO_DISTANCE_MI
    decide
  have hr : (NewGeoFilter lon lat (CDouble.fin 1) (some "mi".toList)).radius =
      CDouble.fin 1 := rfl
  unfold radius_meters
  rw [hu, hr, mi_value]
  show CDouble.round (1 * (7077952172180111 / 4398046511104)) = _
  rw [one_mul, round_mi_value]

theorem kmFilter_radius_meters (lon lat : CDouble) :
    radius_meters (NewGeoFilter lon lat (CDouble.fin 1.60934) (some "km".toList)) =
      CDouble.fin (7077952172180111 / 4398046511104) := by
  have hu : (NewGeoFilter lon lat (CDouble.fin 1.60934) (some "km".toList)).unitType =
      GEO_DISTANCE_KM := by
    show GeoDistance_Parse "km".toList = GEO_DISTANCE_KM
    decide
  have hr : (NewGeoFilter lon lat (CDouble.fin 1.60934) (some "km".toList)).radius =
      CDouble.fin 1.60934 := rfl
  unfold radius_meters
  rw [hu, hr]
  show CDouble.round (1.60934 * 1000) = _
  rw [show (1.60934 : ℚ) * 1000 = 1609.34 by norm_num, round_mi]

theorem kmLiteralFilter_radius_meters (lon lat : CDouble) :
    radius_meters (NewGeoFilter lon lat (CDouble.round 1.60934) (some "km".toList)) =
      CDouble.fin (7077952172180111 / 4398046511104) := by
  have hu : (NewGeoFilter lon lat (CDouble.round 1.60934) (some "km".toList)).unitType =
      GEO_DISTANCE_KM := by
    show GeoDistance_Parse "km".toList = GEO_DISTANCE_KM
    decide
  have hr : (NewGeoFilter lon lat (CDouble.round 1.60934) (some "km".toList)).radius =
      CDouble.fin (3623911512156217 / 2251799813685248) := round_km_radius
  unfold radius_meters
  rw [hu, hr]
  exact round_km_product

theorem calcRanges_fresh (g : CDouble → CDouble → CDouble → GeoHashRadius)
    (lon lat radius : CDouble) (unit : Option (List Char)) (m : ℚ) (hm : 0 ≤ m)
    (h : radius_meters (NewGeoFilter lon lat radius unit) = CDouble.fin m) :
    (calcRanges g (NewGeoFilter lon lat radius unit)).1 = 0 ∧
      (calcRanges g (NewGeoFilter lon lat radius unit)).2.ranges =
        (calcAllNeighbors_loop (g lon lat (CDouble.fin m)) (fun _ => (0, 0))).ranges := by
  have hpos : CDouble.lt (CDouble.fin m) (CDouble.fin 0) = false := by
    simp only [CDouble.lt, decide_eq_false_iff_not, not_lt]
    exact hm
  have hc : calcRanges g (NewGeoFilter lon lat radius unit) =
      (0, calcAllNeighbors (g lon lat (CDouble.fin m)) lon lat (CDouble.fin m)
        (NewGeoFilter lon lat radius unit)) := by
    unfold calcRanges
    simp only [h, hpos]
    rfl
  rw [hc]
  exact ⟨rfl, rfl⟩

/-- C14: for every centre, `calcRanges` computes the same `radius_meters` for
`NewGeoFilter(lon, lat, 1, "mi")` as for `NewGeoFilter(lon, lat, 1.60934, "km")`, namely
the binary64 value of 1609.34: `1 * 1609.34 = 1.60934 * 1000` exactly, and the binary64
product of the binary64 value of 1.60934 and 1000 is that same value.  Hence it asks the
geodesy primitive for the same cover, returns the same `int` and leaves the same
`ranges`. -/
theorem calcRanges_mile_eq_km (g : CDouble → CDouble → CDouble → GeoHashRadius)
    (lon lat : CDouble) :
    radius_meters (NewGeoFilter lon lat (CDouble.fin 1) (some "mi".toList)) =
        radius_meters (NewGeoFilter lon lat (CDouble.fin 1.60934) (some "km".toList)) ∧
      radius_meters (NewGeoFilter lon lat (CDouble.fin 1) (some "mi".toList)) =
        radius_meters (NewGeoFilter lon lat (CDouble.round 1.60934) (some "km".toList)) ∧
      radius_meters (NewGeoFilter lon lat (CDouble.fin 1) (some "mi".toList)) =
        (extractUnitFactor GEO_DISTANCE_MI).rv ∧
      (calcRanges g (NewGeoFilter lon lat (CDouble.fin 1) (some "mi".toList))).1 =
        (calcRanges g (NewGeoFilter lon lat (CDouble.fin 1.60934) (some "km".toList))).1 ∧
      (calcRanges g (NewGeoFilter lon lat (CDouble.fin 1) (some "mi".toList))).1 =
        (calcRanges g (NewGeoFilter lon lat (CDouble.round 1.60934) (some "km".toList))).1 ∧
      (calcRanges g (NewGeoFilter lon lat (CDouble.fin 1) (some "mi".toList))).1 = 0 ∧
      (calcRanges g (NewGeoFilter lon lat (CDouble.fin 1) (some "mi".toList))).2.ranges =
        (calcRanges g
          (NewGeoFilter lon lat (CDouble.fin 1.60934) (some "km".toList))).2.ranges ∧
      (calcRanges g (NewGeoFilter lon lat (CDouble.fin 1) (some "mi".toList))).2.ranges =
        (calcRanges g
          (NewGeoFilter lon lat (CDouble.round 1.60934) (some "km".toList))).2.ranges ∧
      (calcRanges g (NewGeoFilter lon lat (CDouble.fin 1) (some "mi".toList))).2.ranges =
        (calcAllNeighbors_loop (g lon lat (extractUnitFactor GEO_DISTANCE_MI).rv)
          (fun _ => (0, 0))).ranges := by
  have hmi := mileFilter_radius_meters lon lat
  have hkm := kmFilter_radius_meters lon lat
  have hkl := kmLiteralFilter_radius_meters lon lat
  have hm : (0 : ℚ) ≤ 7077952172180111 / 4398046511104 := by norm_num
  have cmi := calcRanges_fresh g lon lat (CDouble.fin 1) (some "mi".toList) _ hm hmi
  have ckm := calcRanges_fresh g lon lat (CDouble.fin 1.60934) (some "km".toList) _ hm hkm
  have ckl := calcRanges_fresh g lon lat (CDouble.round 1.60934) (some "km".toList) _ hm hkl
  refine ⟨hmi.trans hkm.symm, hmi.trans hkl.symm, hmi.trans mi_value.symm, ?_, ?_, cmi.1,
    ?_, ?_, ?_⟩
  · rw [cmi.1, ckm.1]
  · rw [cmi.1, ckl.1]
  · rw [cmi.2, ckm.2]
  · rw [cmi.2, ckl.2]
  · rw [cmi.2, mi_value]

/-! ## C15 -/

theorem written_mono_body (nb : Fin 9 → GeoHashBits) (st : NeighborLoop) (i j : Fin 9)
    (hj : j ∈ st.written) : j ∈ (calcAllNeighbors_body nb st i).written := by
  unfold calcAllNeighbors_body
  split
  · exact hj
  · split
    · exact hj
    · exact List.mem_append.2 (Or.inl hj)

theorem written_mono_foldl (nb : Fin 9 → GeoHashBits) (l : List (Fin 9)) (j : Fin 9) :
    ∀ st : NeighborLoop, j ∈ st.written →
      j ∈ (l.foldl (calcAllNeighbors_body nb) st).written := by
  induction l with
  | nil => intro st hj; exact hj
  | cons a l ih =>
    intro st hj
    exact ih _ (written_mono_body nb st a j hj)

/-- The three branches of one iteration of the loop of `calcAllNeighbors`: an empty
cell is skipped and leaves the state, `last_processed` included, as it was; a non-empty
cell is skipped when `last_processed` is not 0 and its bits and step are those of
`neighbors[last_processed]`; in every other case (in particular whenever
`last_processed` is 0) its slot receives its range and `last_processed` becomes its
index. -/
theorem calcAllNeighbors_body_branches (nb : Fin 9 → GeoHashBits) (st : NeighborLoop)
    (i : Fin 9) :
    (HASHISZERO (nb i) = true → calcAllNeighbors_body nb st i = st) ∧
      (HASHISZERO (nb i) = false → st.last_processed.val ≠ 0 →
        nb i = nb st.last_processed → calcAllNeighbors_body nb st i = st) ∧
      (HASHISZERO (nb i) = false →
        (st.last_processed.val = 0 ∨ nb i ≠ nb st.last_processed) →
        (calcAllNeighbors_body nb st i).ranges i = scoresOfGeoHashBox (nb i) ∧
          (calcAllNeighbors_body nb st i).last_processed = i ∧
          (calcAllNeighbors_body nb st i).written = st.written ++ [i] ∧
          ∀ j, j ≠ i → (calcAllNeighbors_body nb st i).ranges j = st.ranges j) := by
  refine ⟨?_, ?_, ?_⟩
  · intro hz
    unfold calcAllNeighbors_body
    rw [if_pos hz]
  · intro hz hl he
    unfold calcAllNeighbors_body
    rw [if_neg (by simp [hz]), if_pos ⟨hl, by rw [he], by rw [he]⟩]
  · intro hz hor
    have hd : ¬ (st.last_processed.val ≠ 0 ∧
        (nb i).bits = (nb st.last_processed).bits ∧
        (nb i).step = (nb st.last_processed).step) := by
      rintro ⟨h0, hb, hs⟩
      rcases hor with h | h
      · exact h0 h
      · exact h (cell_eq_of_fields _ _ hb hs)
    unfold calcAllNeighbors_body
    rw [if_neg (by simp [hz]), if_neg hd]
    refine ⟨by simp, rfl, rfl, ?_⟩
    intro j hj
    simp [Function.update_noteq hj]

/-- C15: a non-empty cell identical to the last non-skipped cell is not skipped when that
last cell is the centre.  On `centreRepeatCover` the north cell is empty and the south
cell has the bits and step of the centre, the last non-skipped cell before it, yet slot 2
is stored to; the later repeats (east of south, north-west of west across the empty
north-east, south-west of south-east) are skipped.  For every cover whose north cell
repeats a non-empty centre, slot 1 is stored to. -/
theorem calcAllNeighbors_centre_duplicate_not_skipped :
    HASHISZERO (neighborsArray centreRepeatCover 1) = true ∧
      HASHISZERO (neighborsArray centreRepeatCover 2) = false ∧
      neighborsArray centreRepeatCover 2 = neighborsArray centreRepeatCover 0 ∧
      writtenSlots centreRepeatCover unitFilter = [0, 2, 4, 7] ∧
      (calcAllNeighbors centreRepeatCover (CDouble.fin 0) (CDouble.fin 0) (CDouble.fin 1000)
          unitFilter).ranges 2 = scoresOfGeoHashBox ⟨42, 3⟩ ∧
      (∀ (n : GeoHashRadius) (gf : GeoFilter),
        HASHISZERO (neighborsArray n 0) = false →
          neighborsArray n 1 = neighborsArray n 0 → 1 ∈ writtenSlots n gf) := by
  refine ⟨by decide, by decide, by decide, by decide, by decide, ?_⟩
  intro n gf hz he
  have hz1 : HASHISZERO (neighborsArray n 1) = false := by rw [he]; exact hz
  show 1 ∈ (List.foldl (calcAllNeighbors_body (neighborsArray n))
    (calcAllNeighbors_body (neighborsArray n)
      (calcAllNeighbors_body (neighborsArray n) ⟨gf.ranges, 0, []⟩ 0) 1)
    [2, 3, 4, 5, 6, 7, 8]).written
  apply written_mono_foldl
  simp [calcAllNeighbors_body, hz, hz1]

/-! ## C16 -/

/-- C16: on `poleCover` decomposition stores to 5 slots and skips 4 cells, yet the union
`NewGeoRangeIterator` builds has 9 range lookups.  The slot of the empty north cell has
a lookup of its own, `NewNumericFilter(0, 0, 1, 1)`, and that lookup admits a document
whose stored scalar is 0, although 0 lies in no cell of the cover. -/
theorem NewGeoRangeIterator_nine_lookups :
    (writtenSlots poleCover unitFilter).length = 5 ∧
      HASHISZERO (neighborsArray poleCover 1) = true ∧
      (NewGeoRangeIterator (fun _ _ _ => poleCover) ⟨[], 0⟩ unitFilter
        (CDouble.fin 1)).2.num = 9 ∧
      (NewGeoRangeIterator (fun _ _ _ => poleCover) ⟨[], 0⟩ unitFilter
        (CDouble.fin 1)).2.its 1 = NewNumericFilter (CDouble.fin 0) (CDouble.fin 0) 1 1 ∧
      NumericFilter_Match
        ((NewGeoRangeIterator (fun _ _ _ => poleCover) ⟨[], 0⟩ unitFilter
          (CDouble.fin 1)).2.its 1)
        (CDouble.fin 0) = true ∧
      (∀ i, HASHISZERO (neighborsArray poleCover i) = false →
        0 >>> (52 - 2 * (neighborsArray poleCover i).step) ≠
          (neighborsArray poleCover i).bits) := by
  have hr : (calcRanges (fun _ _ _ => poleCover) unitFilter).2.ranges 1 = (0, 0) :=
    calcRanges_unwritten (fun _ _ _ => poleCover) unitFilter 1 (by decide)
  have h1 : (NewGeoRangeIterator (fun _ _ _ => poleCover) ⟨[], 0⟩ unitFilter
      (CDouble.fin 1)).2.its 1 = NewNumericFilter (CDouble.fin 0) (CDouble.fin 0) 1 1 := by
    show NewNumericFilter
      (CDouble.ofUInt64 ((calcRanges (fun _ _ _ => poleCover) unitFilter).2.ranges 1).1)
      (CDouble.ofUInt64 ((calcRanges (fun _ _ _ => poleCover) unitFilter).2.ranges 1).2)
      1 1 = _
    rw [hr]
    show NewNumericFilter (CDouble.ofUInt64 0) (CDouble.ofUInt64 0) 1 1 = _
    rw [ofUInt64_zero]
  refine ⟨by decide, by decide, rfl, h1, ?_, by decide⟩
  rw [h1]
  decide

/-- The union `NewGeoRangeIterator` builds has one range lookup per slot, 9 in all,
whatever cells decomposition skipped.  The bounds of the lookup of slot `ii` are the
binary64 conversions of the `min` and `max` the filter holds in that slot after
`calcRanges`: what the slot held before the call when its cell was skipped, `(0, 0)` for
a filter created by `NewGeoFilter`, and the range of its cell when the slot was stored
to. -/
theorem NewGeoRangeIterator_one_lookup_per_slot
    (g : CDouble → CDouble → CDouble → GeoHashRadius) (gi : GeoIndex) (gf : GeoFilter)
    (weight : CDouble) :
    (NewGeoRangeIterator g gi gf weight).2.num = 9 ∧
      (NewGeoRangeIterator g gi gf weight).1 = (calcRanges g gf).2 ∧
      (∀ ii, (NewGeoRangeIterator g gi gf weight).2.its ii =
        NewNumericFilter (CDouble.ofUInt64 ((calcRanges g gf).2.ranges ii).1)
          (CDouble.ofUInt64 ((calcRanges g gf).2.ranges ii).2) 1 1) ∧
      (∀ ii, ii ∉ writtenSlots (g gf.lon gf.lat (radius_meters gf)) gf →
        (calcRanges g gf).2.ranges ii = gf.ranges ii) ∧
      (∀ ii, ii ∉ writtenSlots (g gf.lon gf.lat (radius_meters gf)) gf →
        (∀ j, gf.ranges j = (0, 0)) →
        (NewGeoRangeIterator g gi gf weight).2.its ii =
          NewNumericFilter (CDouble.fin 0) (CDouble.fin 0) 1 1) ∧
      (CDouble.lt (radius_meters gf) (CDouble.fin 0) = false →
        ∀ ii ∈ writtenSlots (g gf.lon gf.lat (radius_meters gf)) gf,
          (calcRanges g gf).2.ranges ii =
            scoresOfGeoHashBox (neighborsArray (g gf.lon gf.lat (radius_meters gf)) ii)) := by
  refine ⟨rfl, rfl, fun _ => rfl, ?_, ?_, ?_⟩
  · intro ii hii
    exact calcRanges_unwritten g gf ii hii
  · intro ii hii hfresh
    show NewNumericFilter (CDouble.ofUInt64 ((calcRanges g gf).2.ranges ii).1)
      (CDouble.ofUInt64 ((calcRanges g gf).2.ranges ii).2) 1 1 = _
    rw [calcRanges_unwritten g gf ii hii, hfresh ii]
    show NewNumericFilter (CDouble.ofUInt64 0) (CDouble.ofUInt64 0) 1 1 = _
    rw [ofUInt64_zero]
  · intro hpos ii hii
    exact calcRanges_written g gf ii hpos hii

/-! ## C17 -/

theorem validate_accepts (gf : GeoFilter) (h : (GeoFilter_Validate gf).1 = 1) :
    gf.unitType ≠ GEO_DISTANCE_INVALID ∧ CDouble.le gf.radius (CDouble.fin 0) = false := by
  unfold GeoFilter_Validate at h
  by_cases hu : gf.unitType = GEO_DISTANCE_INVALID
  · rw [if_pos hu] at h
    simp at h
  · rw [if_neg hu] at h
    refine ⟨hu, ?_⟩
    split at h
    · simp at h
    · split at h
      · simp at h
      · rename_i hr
        simpa using hr

theorem factor_of_valid_unit (u : GeoDistance) (hu : u ≠ GEO_DISTANCE_INVALID) :
    (extractUnitFactor u).assertReached = false ∧
      ∃ f : ℚ, 0 < f ∧ (extractUnitFactor u).rv = CDouble.fin f := by
  cases u
  · exact absurd rfl hu
  · exact ⟨rfl, 1000, by norm_num, rfl⟩
  · exact ⟨rfl, 1, by norm_num, rfl⟩
  · exact ⟨rfl, 5490788665690109 / 18014398509481984, by norm_num, ft_value⟩
  · exact ⟨rfl, 7077952172180111 / 4398046511104, by norm_num, mi_value⟩

theorem lt_zero_of_round_nonneg (x : ℚ) (hx : 0 ≤ x) :
    CDouble.lt (CDouble.round x) (CDouble.fin 0) = false := by
  rcases round_nonneg x hx with h | ⟨y, hy, h⟩
  · rw [h]; rfl
  · rw [h]
    simp only [CDouble.lt, decide_eq_false_iff_not, not_lt]
    exact hy

/-- For a filter that `GeoFilter_Validate` accepts, `extractUnitFactor` does not reach
its assertion and returns a positive factor, the radius in meters computed by
`calcRanges` is not negative (it is NaN for a NaN radius, and the product may round to
0), and `calcRanges` returns 0. -/
theorem calcRanges_ok_of_validated (g : CDouble → CDouble → CDouble → GeoHashRadius)
    (gf : GeoFilter) (h : (GeoFilter_Validate gf).1 = 1) :
    (extractUnitFactor gf.unitType).assertReached = false ∧
      CDouble.gt (extractUnitFactor gf.unitType).rv (CDouble.fin 0) = true ∧
      CDouble.lt (radius_meters gf) (CDouble.fin 0) = false ∧
      (calcRanges g gf).1 = 0 := by
  obtain ⟨hu, hr⟩ := validate_accepts gf h
  obtain ⟨ha, f, hf, hrv⟩ := factor_of_valid_unit gf.unitType hu
  have hne : f ≠ 0 := ne_of_gt hf
  have hrm : radius_meters gf = CDouble.mul gf.radius (CDouble.fin f) := by
    unfold radius_meters
    rw [hrv]
  have hlt : CDouble.lt (radius_meters gf) (CDouble.fin 0) = false := by
    rw [hrm]
    cases hrad : gf.radius with
    | nan => rfl
    | negInf => rw [hrad] at hr; simp [CDouble.le] at hr
    | posInf => simp [CDouble.mul, CDouble.lt, hne, hf]
    | fin q =>
      rw [hrad] at hr
      have hq : 0 < q := by simpa [CDouble.le] using hr
      show CDouble.lt (CDouble.round (q * f)) (CDouble.fin 0) = false
      exact lt_zero_of_round_nonneg _ (le_of_lt (mul_pos hq hf))
  refine ⟨ha, ?_, hlt, ?_⟩
  · rw [hrv]
    simp [CDouble.gt, CDouble.lt, hf]
  · unfold calcRanges
    simp [hlt]

theorem calcRanges_ok_of_validated_witness :
    (GeoFilter_Validate unitFilter).1 = 1 ∧
      (extractUnitFactor unitFilter.unitType).assertReached = false ∧
      CDouble.gt (extractUnitFactor unitFilter.unitType).rv (CDouble.fin 0) = true ∧
      CDouble.lt (radius_meters unitFilter) (CDouble.fin 0) = false ∧
      (calcRanges (fun _ _ _ => poleCover) unitFilter).1 = 0 :=
  ⟨by decide, calcRanges_ok_of_validated (fun _ _ _ => poleCover) unitFilter (by decide)⟩

/-- C17: `GeoFilter_Validate` accepts the filter `NewGeoFilter(0, 0, NAN, "km")`, and for
it `extractUnitFactor` does not reach its assertion and returns the positive factor
1000, but the radius in meters computed by `calcRanges` is NaN, which is not positive;
`calcRanges` still returns 0. -/
theorem calcRanges_nan_radius_not_positive :
    (GeoFilter_Validate nanRadiusFilter).1 = 1 ∧
      (extractUnitFactor nanRadiusFilter.unitType).assertReached = false ∧
      (extractUnitFactor nanRadiusFilter.unitType).rv = CDouble.fin 1000 ∧
      radius_meters nanRadiusFilter = CDouble.nan ∧
      CDouble.gt (radius_meters nanRadiusFilter) (CDouble.fin 0) = false ∧
      (calcRanges (fun _ _ _ => poleCover) nanRadiusFilter).1 = 0 := by
  decide

/-! ## C18 -/

theorem scores_width (c : GeoHashBits) (hv : validCell c) :
    (scoresOfGeoHashBox c).1 < (scoresOfGeoHashBox c).2 ∧
      (scoresOfGeoHashBox c).2 - (scoresOfGeoHashBox c).1 = 2 ^ (52 - 2 * c.step) := by
  have hk : 52 - 2 * c.step = 52 - c.step * 2 := by omega
  rw [scores_eq c hv, hk]
  have hpos : 0 < 2 ^ (52 - c.step * 2) := Nat.two_pow_pos _
  have hmul : (c.bits + 1) * 2 ^ (52 - c.step * 2) =
      c.bits * 2 ^ (52 - c.step * 2) + 2 ^ (52 - c.step * 2) := by
    rw [Nat.add_mul, Nat.one_mul]
  constructor
  · show c.bits * 2 ^ (52 - c.step * 2) < (c.bits + 1) * 2 ^ (52 - c.step * 2)
    omega
  · show (c.bits + 1) * 2 ^ (52 - c.step * 2) - c.bits * 2 ^ (52 - c.step * 2) = _
    omega

/-- C18: for a filter whose `ranges` are all zero, as `NewGeoFilter` creates it, and a
cover whose cells are valid or empty, after `calcAllNeighbors` a slot has `min = max`
exactly when it was not stored to (its cell was skipped), and then `min = max = 0`;
every slot stored to holds the range of its cell, with `min < max` and
`max - min = 2 ^ (52 - 2 * step)`; and the range of every skipped non-empty cell is the
range held by some slot stored to. -/
theorem calcAllNeighbors_fresh_ranges (n : GeoHashRadius) (lon lat radius : CDouble)
    (gf : GeoFilter) (hfresh : ∀ j, gf.ranges j = (0, 0))
    (hcells : ∀ i, validCell (neighborsArray n i) ∨ HASHISZERO (neighborsArray n i) = true) :
    (∀ j, ((calcAllNeighbors n lon lat radius gf).ranges j).1 =
          ((calcAllNeighbors n lon lat radius gf).ranges j).2 ↔
        j ∉ writtenSlots n gf) ∧
      (∀ j, j ∉ writtenSlots n gf →
        (calcAllNeighbors n lon lat radius gf).ranges j = (0, 0)) ∧
      (∀ j ∈ writtenSlots n gf,
        (calcAllNeighbors n lon lat radius gf).ranges j =
            scoresOfGeoHashBox (neighborsArray n j) ∧
          ((calcAllNeighbors n lon lat radius gf).ranges j).1 <
            ((calcAllNeighbors n lon lat radius gf).ranges j).2 ∧
          ((calcAllNeighbors n lon lat radius gf).ranges j).2 -
              ((calcAllNeighbors n lon lat radius gf).ranges j).1 =
            2 ^ (52 - 2 * (neighborsArray n j).step)) ∧
      (∀ i, i ∉ writtenSlots n gf → HASHISZERO (neighborsArray n i) = false →
        ∃ j ∈ writtenSlots n gf,
          (calcAllNeighbors n lon lat radius gf).ranges j =
            scoresOfGeoHashBox (neighborsArray n i)) := by
  have hinv := loopInv_final n gf.ranges
  have hvalid : ∀ j, HASHISZERO (neighborsArray n j) = false →
      validCell (neighborsArray n j) := by
    intro j hz
    rcases hcells j with hv | he
    · exact hv
    · rw [he] at hz; cases hz
  have hout : ∀ j, j ∉ writtenSlots n gf →
      (calcAllNeighbors n lon lat radius gf).ranges j = (0, 0) := by
    intro j hj
    exact (hinv.unwritten j hj).trans (hfresh j)
  have hin : ∀ j ∈ writtenSlots n gf,
      (calcAllNeighbors n lon lat radius gf).ranges j =
          scoresOfGeoHashBox (neighborsArray n j) ∧
        ((calcAllNeighbors n lon lat radius gf).ranges j).1 <
          ((calcAllNeighbors n lon lat radius gf).ranges j).2 ∧
        ((calcAllNeighbors n lon lat radius gf).ranges j).2 -
            ((calcAllNeighbors n lon lat radius gf).ranges j).1 =
          2 ^ (52 - 2 * (neighborsArray n j).step) := by
    intro j hj
    obtain ⟨hval, hz⟩ := hinv.written_val j hj
    have hval' : (calcAllNeighbors n lon lat radius gf).ranges j =
        scoresOfGeoHashBox (neighborsArray n j) := hval
    have hw := scores_width (neighborsArray n j) (hvalid j hz)
    rw [hval']
    exact ⟨rfl, hw.1, hw.2⟩
  refine ⟨?_, hout, hin, ?_⟩
  · intro j
    constructor
    · intro heq hj
      have := (hin j hj).2.1
      omega
    · intro hj
      rw [hout j hj]
  · intro i _ hz
    obtain ⟨j, hj, hji⟩ := hinv.covered i trivial hz
    refine ⟨j, hj, ?_⟩
    rw [(hin j hj).1, hji]

theorem calcAllNeighbors_fresh_ranges_witness :
    (∀ j, unitFilter.ranges j = (0, 0)) ∧
      (∀ i, validCell (neighborsArray poleCover i) ∨
        HASHISZERO (neighborsArray poleCover i) = true) ∧
      (∀ j, ((calcAllNeighbors poleCover (CDouble.fin 0) (CDouble.fin 0) (CDouble.fin 1000)
            unitFilter).ranges j).1 =
          ((calcAllNeighbors poleCover (CDouble.fin 0) (CDouble.fin 0) (CDouble.fin 1000)
            unitFilter).ranges j).2 ↔
        j ∉ writtenSlots poleCover unitFilter) :=
  ⟨by decide, by decide,
    (calcAllNeighbors_fresh_ranges poleCover (CDouble.fin 0) (CDouble.fin 0)
      (CDouble.fin 1000) unitFilter (by decide) (by decide)).1⟩

end RediSearch
